import Mathlib

/-!
Verification of the pykin robot-kinematics repository.

The Python sources are shallowly embedded: numpy float matrices/vectors become
real-valued `Matrix`/`Fin n → ℝ` values, Python exceptions become `Except`
results, and stateful objects (the scene manager) become explicit state
records.  Code that lives outside the provided sources (numpy's `pinv`,
the URDF frame structures, `jacobian.py`, `transform_utils.py`) is either
abstracted into model parameters or, where a claim depends on it, modelled
from the specification text (marked in the doc comment).
-/

set_option autoImplicit false

noncomputable section

/-- 4x4 homogeneous pose matrix, as used throughout pykin. -/
abbrev M4 := Matrix (Fin 4) (Fin 4) ℝ

/-- 3-vector. -/
abbrev V3 := Fin 3 → ℝ

/-- 6-vector (stacked position/orientation error). -/
abbrev V6 := Fin 6 → ℝ

/-- Euclidean norm of a 3-vector; `np.linalg.norm` on a `(3,1)` array. -/
def norm3 (v : V3) : ℝ := Real.sqrt (v 0 ^ 2 + v 1 ^ 2 + v 2 ^ 2)

/-- Euclidean norm of a 6-vector; `np.linalg.norm` on a `(6,1)` array. -/
def norm6 (v : V6) : ℝ :=
  Real.sqrt (v 0 ^ 2 + v 1 ^ 2 + v 2 ^ 2 + v 3 ^ 2 + v 4 ^ 2 + v 5 ^ 2)

/-- `np.arctan2 y x`, modelled as the argument of the complex number `x + i y`. -/
def atan2 (y x : ℝ) : ℝ := Complex.arg (x + y * Complex.I)

/-- The rotation block `T[:3, :3]` of a homogeneous matrix. -/
def rotOf (T : M4) : Matrix (Fin 3) (Fin 3) ℝ :=
  !![T 0 0, T 0 1, T 0 2; T 1 0, T 1 1, T 1 2; T 2 0, T 2 1, T 2 2]

/-- The vector `el = [R₂₁−R₁₂, R₀₂−R₂₀, R₁₀−R₀₁]` from `rot_to_omega`. -/
def rotEl (R : Matrix (Fin 3) (Fin 3) ℝ) : V3 :=
  ![R 2 1 - R 1 2, R 0 2 - R 2 0, R 1 0 - R 0 1]

/-- `pykin/utils/kin_utils.py`, `rot_to_omega(R, EPS)`. -/
def rot_to_omega (R : Matrix (Fin 3) (Fin 3) ℝ) (EPS : ℝ) : V3 :=
  let el := rotEl R
  let norm_el := norm3 el
  if norm_el > EPS then
    fun i => atan2 norm_el (Matrix.trace R - 1) / norm_el * el i
  else if 0 < R 0 0 ∧ 0 < R 1 1 ∧ 0 < R 2 2 then
    fun _ => 0
  else
    fun i => Real.pi / 2 * ![R 0 0 + 1, R 1 1 + 1, R 2 2 + 1] i

/-- `pykin/utils/kin_utils.py`, `calc_pose_error(tar_pose, cur_pose, EPS)`:
positions `tar[:3,-1] - cur[:3,-1]` stacked over `cur_R ⬝ rot_to_omega(cur_Rᵀ ⬝ tar_R, EPS)`. -/
def calc_pose_error (tar cur : M4) (EPS : ℝ) : V6 :=
  let pos_err : V3 := ![tar 0 3 - cur 0 3, tar 1 3 - cur 1 3, tar 2 3 - cur 2 3]
  let rot_err := (rotOf cur).transpose * rotOf tar
  let w_err : V3 := (rotOf cur).mulVec (rot_to_omega rot_err EPS)
  ![pos_err 0, pos_err 1, pos_err 2, w_err 0, w_err 1, w_err 2]

/-- Rotation by 180 degrees about the Z axis. -/
def rotZ180 : Matrix (Fin 3) (Fin 3) ℝ := !![-1, 0, 0; 0, -1, 0; 0, 0, 1]

theorem rotEl_one : rotEl (1 : Matrix (Fin 3) (Fin 3) ℝ) = ![0, 0, 0] := by
  simp [rotEl, Matrix.one_apply]

theorem norm3_zero_vec : norm3 ![0, 0, 0] = 0 := by
  simp [norm3]

/-- At the identity rotation, `rot_to_omega` lands in the all-diagonal-positive
branch and returns the zero vector, for any nonnegative tolerance. -/
theorem rot_to_omega_one (EPS : ℝ) (hEPS : 0 ≤ EPS) :
    rot_to_omega (1 : Matrix (Fin 3) (Fin 3) ℝ) EPS = 0 := by
  simp only [rot_to_omega, rotEl_one, norm3_zero_vec]
  rw [if_neg (not_lt.mpr hEPS), if_pos (by norm_num [Matrix.one_apply])]
  rfl

/-- C1: `rot_to_omega` (the angular-error term of `calc_pose_error`, applied to the
relative rotation `curᵀ·target`) has exactly the three documented branches: for
`el = [R₂₁−R₁₂, R₀₂−R₂₀, R₁₀−R₀₁]`, if `‖el‖ > EPS` the result is
`atan2(‖el‖, trace R − 1)/‖el‖ · el`; if `‖el‖ ≤ EPS` and all three diagonal
entries are positive the result is zero (in particular the identity rotation
gives zero); otherwise the result is `(π/2)·[R₀₀+1, R₁₁+1, R₂₂+1]` (in
particular a 180-degree rotation about Z takes the singular branch, yielding
`[0, 0, π]`, not the general formula). -/
theorem C1_rot_to_omega_branches (R : Matrix (Fin 3) (Fin 3) ℝ) (EPS : ℝ) (hEPS : 0 ≤ EPS) :
    (norm3 (rotEl R) > EPS →
      rot_to_omega R EPS =
        fun i => atan2 (norm3 (rotEl R)) (Matrix.trace R - 1) / norm3 (rotEl R) * rotEl R i) ∧
    (norm3 (rotEl R) ≤ EPS → (0 < R 0 0 ∧ 0 < R 1 1 ∧ 0 < R 2 2) →
      rot_to_omega R EPS = 0) ∧
    (norm3 (rotEl R) ≤ EPS → ¬(0 < R 0 0 ∧ 0 < R 1 1 ∧ 0 < R 2 2) →
      rot_to_omega R EPS = fun i => Real.pi / 2 * ![R 0 0 + 1, R 1 1 + 1, R 2 2 + 1] i) ∧
    rot_to_omega 1 EPS = 0 ∧
    rot_to_omega rotZ180 EPS = ![0, 0, Real.pi] := by
  have helZ : rotEl rotZ180 = ![0, 0, 0] := by
    funext i
    fin_cases i <;>
      norm_num [rotEl, rotZ180, Matrix.vecHead, Matrix.vecTail]
  refine ⟨?_, ?_, ?_, rot_to_omega_one EPS hEPS, ?_⟩
  · intro h
    simp only [rot_to_omega]
    rw [if_pos h]
  · intro h1 h2
    simp only [rot_to_omega]
    rw [if_neg (not_lt.mpr h1), if_pos h2]
    rfl
  · intro h1 h2
    simp only [rot_to_omega]
    rw [if_neg (not_lt.mpr h1), if_neg h2]
  · simp only [rot_to_omega, helZ, norm3_zero_vec]
    rw [if_neg (not_lt.mpr hEPS), if_neg (by norm_num [rotZ180])]
    funext i
    fin_cases i <;> simp [rotZ180] <;> ring

/-- Witness for C1 at `R = 1`, `EPS = 1`. -/
theorem C1_rot_to_omega_branches_witness :
    (0 : ℝ) ≤ 1 ∧ rot_to_omega 1 1 = 0 :=
  ⟨by norm_num, (C1_rot_to_omega_branches 1 1 (by norm_num)).2.2.2.1⟩

/-!
## Inverse kinematics (`pykin/kinematics/kinematics.py`)

The frame tree, `jacobian.py`, `transform_utils.get_homogeneous_matrix` and
numpy's `pinv` are not among the given sources; an `IKModel` packages them as
abstract functions, while the solver loops themselves are embedded verbatim.
-/

/-- Abstract interface to the parts of the IK computation implemented outside
the given sources: forward kinematics over the frame list (whose result `α`
stands for the `OrderedDict` of transformations), extraction of the last
frame's homogeneous matrix, the Jacobian, and numpy's pseudoinverse for the
two matrix shapes used. -/
structure IKModel (n : ℕ) (α : Type) where
  fk : (Fin n → ℝ) → α
  pose : α → M4
  jacobian : α → Matrix (Fin 6) (Fin n) ℝ
  pinv6n : Matrix (Fin 6) (Fin n) ℝ → Matrix (Fin n) (Fin 6) ℝ
  pinvnn : Matrix (Fin n) (Fin n) ℝ → Matrix (Fin n) (Fin n) ℝ

/-- The scalar error `np.linalg.norm(err_pose)` that `_compute_IK_NR` tracks
(with its `EPS = 1e-6`). -/
def NR_err {n : ℕ} {α : Type} (m : IKModel n α) (target : M4) (q : Fin n → ℝ) : ℝ :=
  norm6 (calc_pose_error target (m.pose (m.fk q)) 1e-6)

/-- One Newton-Raphson update: `dq = 0.5 · pinv(J) · err_pose`, `q ← q + dq`. -/
def NR_step {n : ℕ} {α : Type} (m : IKModel n α) (target : M4) (q : Fin n → ℝ) :
    Fin n → ℝ :=
  let cur_fk := m.fk q
  let err_pose := calc_pose_error target (m.pose cur_fk) 1e-6
  let J := m.jacobian cur_fk
  fun i => q i + 0.5 * Matrix.mulVec (m.pinv6n J) err_pose i

/-- The `while err > EPS` loop of `_compute_IK_NR`: the iterator is incremented
at the top of the body and the loop breaks (returning the current joints) as
soon as it exceeds `maxIter`.  `fuel` is a structural bound, always at least
`maxIter + 1` at the entry point. -/
def NR_loop {n : ℕ} {α : Type} (m : IKModel n α) (target : M4) (maxIter : ℕ) :
    ℕ → (Fin n → ℝ) → ℕ → (Fin n → ℝ)
  | 0, q, _ => q
  | fuel + 1, q, iterator =>
    if NR_err m target q > 1e-6 then
      if iterator + 1 > maxIter then q
      else NR_loop m target maxIter fuel (NR_step m target q) (iterator + 1)
    else q

/-- `_compute_IK_NR` (the conversion of the 6/7-vector target into a
homogeneous matrix happens upstream and is abstracted into `target`). -/
def compute_IK_NR {n : ℕ} {α : Type} (m : IKModel n α) (target : M4)
    (q0 : Fin n → ℝ) (maxIter : ℕ) : Fin n → ℝ :=
  NR_loop m target maxIter (maxIter + 1) q0 0

theorem NR_loop_run {n : ℕ} {α : Type} (m : IKModel n α) (target : M4) (maxIter : ℕ) :
    ∀ fuel iterator q, maxIter + 1 = iterator + fuel →
      (∀ k, k ≤ maxIter - iterator → NR_err m target ((NR_step m target)^[k] q) > 1e-6) →
      NR_loop m target maxIter fuel q iterator =
        (NR_step m target)^[maxIter - iterator] q := by
  intro fuel
  induction fuel with
  | zero =>
    intro iterator q hiv _
    have h0 : maxIter - iterator = 0 := by omega
    simp [NR_loop, h0]
  | succ f ih =>
    intro iterator q hiv h
    have hq : NR_err m target q > 1e-6 := by simpa using h 0 (Nat.zero_le _)
    simp only [NR_loop]
    rw [if_pos hq]
    by_cases hcap : iterator + 1 > maxIter
    · rw [if_pos hcap]
      have h0 : maxIter - iterator = 0 := by omega
      simp [h0]
    · rw [if_neg hcap]
      have h2 : ∀ k, k ≤ maxIter - (iterator + 1) →
          NR_err m target ((NR_step m target)^[k] (NR_step m target q)) > 1e-6 := by
        intro k hk
        have := h (k + 1) (by omega)
        rwa [Function.iterate_succ_apply] at this
      rw [ih (iterator + 1) (NR_step m target q) (by omega) h2]
      have h3 : maxIter - iterator = (maxIter - (iterator + 1)) + 1 := by omega
      rw [h3, Function.iterate_succ_apply]

/-- C3: when the Newton-Raphson solver never brings the pose-error norm to the
`1e-6` threshold within the iteration cap, it returns the joints it has
computed (the `maxIter`-fold application of the update step to the seed) as an
ordinary value — the return type carries no failure signal, no exception path
exists in the loop, and the caller must check convergence itself. -/
theorem C3_NR_cap_returns_joints {n : ℕ} {α : Type} (m : IKModel n α) (target : M4)
    (q0 : Fin n → ℝ) (maxIter : ℕ)
    (h : ∀ k, k ≤ maxIter → NR_err m target ((NR_step m target)^[k] q0) > 1e-6) :
    compute_IK_NR m target q0 maxIter = (NR_step m target)^[maxIter] q0 := by
  have := NR_loop_run m target maxIter (maxIter + 1) 0 q0 (by omega) (by simpa using h)
  simpa [compute_IK_NR] using this

/-- An `IKModel` whose forward kinematics is constant with the end effector at
the identity orientation, shifted by one along x. -/
def poseShift : M4 := fun i j => if i = 0 ∧ j = 3 then 1 else (1 : M4) i j

def IKM2 : IKModel 1 Unit :=
  ⟨fun _ => (), fun _ => poseShift, fun _ => 0, fun _ => 0, fun _ => 0⟩

theorem rotOf_one : rotOf (1 : M4) = 1 := by
  funext i j
  fin_cases i <;> fin_cases j <;>
    simp [rotOf, Matrix.one_apply, Matrix.vecHead, Matrix.vecTail]

theorem rotOf_poseShift : rotOf poseShift = 1 := by
  funext i j
  fin_cases i <;> fin_cases j <;>
    simp [rotOf, poseShift, Matrix.one_apply, Matrix.vecHead, Matrix.vecTail]

theorem NR_err_IKM2 (target : M4) (q : Fin 1 → ℝ) (ht : target = 1) :
    NR_err IKM2 target q = 1 := by
  subst ht
  have hrel : (rotOf poseShift).transpose * rotOf (1 : M4) = 1 := by
    rw [rotOf_poseShift, rotOf_one]
    simp
  have hcp : calc_pose_error 1 poseShift 1e-6 = ![-1, 0, 0, 0, 0, 0] := by
    simp only [calc_pose_error, hrel, rot_to_omega_one 1e-6 (by norm_num),
      Matrix.mulVec_zero]
    funext i
    fin_cases i <;>
      norm_num [poseShift, Matrix.one_apply, Matrix.vecHead, Matrix.vecTail,
        Fin.ext_iff, Pi.zero_apply] <;>
      decide
  show norm6 (calc_pose_error 1 poseShift 1e-6) = 1
  rw [hcp]
  simp only [norm6]
  norm_num [show (![(-1:ℝ), 0, 0, 0, 0, 0] : V6) 5 = 0 from rfl,
    show (![(-1:ℝ), 0, 0, 0, 0, 0] : V6) 4 = 0 from rfl,
    show (![(-1:ℝ), 0, 0, 0, 0, 0] : V6) 3 = 0 from rfl,
    show (![(-1:ℝ), 0, 0, 0, 0, 0] : V6) 2 = 0 from rfl,
    show (![(-1:ℝ), 0, 0, 0, 0, 0] : V6) 1 = 0 from rfl,
    show (![(-1:ℝ), 0, 0, 0, 0, 0] : V6) 0 = -1 from rfl]

/-- Witness for C3: with the constant-pose model the error is always `1`, so a
run with `maxIter = 1` exceeds the cap and returns the once-stepped joints. -/
theorem C3_NR_cap_returns_joints_witness :
    compute_IK_NR IKM2 1 (fun _ => 0) 1 = (NR_step IKM2 1)^[1] (fun _ => 0) :=
  C3_NR_cap_returns_joints IKM2 1 (fun _ => 0) 1
    (fun k _ => by rw [NR_err_IKM2 1 _ rfl]; norm_num)

/-! ### Levenberg-Marquardt -/

/-- `wn_pos = 1/0.3`. -/
def wn_pos : ℝ := 1 / 0.3

/-- `wn_ang = 1/(2π)`. -/
def wn_ang : ℝ := 1 / (2 * Real.pi)

/-- `We = diag(wn_pos, wn_pos, wn_pos, wn_ang, wn_ang, wn_ang)`. -/
def We : Matrix (Fin 6) (Fin 6) ℝ :=
  Matrix.diagonal ![wn_pos, wn_pos, wn_pos, wn_ang, wn_ang, wn_ang]

/-- The weighted squared error `errᵀ · We · err`. -/
def weightedEk (err : V6) : ℝ := Matrix.dotProduct err (Matrix.mulVec We err)

/-- Loop state of `_compute_IK_LM`: the joints, the cached forward-kinematics
result (`cur_fk`, which the method stores as a side effect), and `Ek`. -/
structure LMState (n : ℕ) (α : Type) where
  q : Fin n → ℝ
  fkc : α
  Ek : ℝ

/-- The LM step `dq = pinv(Jh) · gerr` with `lamb = Ek + 0.002`,
`Jh = Jᵀ·We·J + Wn·lamb` (`Wn = I`) and `gerr = Jᵀ·We·err`. -/
def LM_dq {n : ℕ} {α : Type} (m : IKModel n α) (target : M4) (s : LMState n α) :
    Fin n → ℝ :=
  let lamb := s.Ek + 0.002
  let J := m.jacobian s.fkc
  let Jh := J.transpose * We * J + lamb • (1 : Matrix (Fin n) (Fin n) ℝ)
  let err := calc_pose_error target (m.pose s.fkc) 1e-12
  let gerr := Matrix.mulVec (J.transpose * We) err
  Matrix.mulVec (m.pinvnn Jh) gerr

/-- `Ek2`, the weighted error after tentatively applying `dq`. -/
def LM_trialEk {n : ℕ} {α : Type} (m : IKModel n α) (target : M4) (s : LMState n α) : ℝ :=
  weightedEk (calc_pose_error target
    (m.pose (m.fk (fun i => s.q i + LM_dq m target s i))) 1e-12)

/-- One body of the LM `while` loop (after the iterator/cap bookkeeping): apply
`dq`, recompute FK and `Ek2`; accept when `Ek2 < Ek` (second component `true`
means the loop continues), otherwise subtract `dq` back off, recompute FK at
the reverted joints, and stop. -/
def LM_body {n : ℕ} {α : Type} (m : IKModel n α) (target : M4) (s : LMState n α) :
    LMState n α × Bool :=
  let dq := LM_dq m target s
  let q2 := fun i => s.q i + dq i
  let fk2 := m.fk q2
  let Ek2 := weightedEk (calc_pose_error target (m.pose fk2) 1e-12)
  if Ek2 < s.Ek then (⟨q2, fk2, Ek2⟩, true)
  else
    let q3 := fun i => q2 i - dq i
    (⟨q3, m.fk q3, s.Ek⟩, false)

/-- The `while Ek > EPS` loop of `_compute_IK_LM` (`EPS = 1e-12`). -/
def LM_loop {n : ℕ} {α : Type} (m : IKModel n α) (target : M4) (maxIter : ℕ) :
    ℕ → LMState n α → ℕ → LMState n α
  | 0, s, _ => s
  | fuel + 1, s, iterator =>
    if s.Ek > 1e-12 then
      if iterator + 1 > maxIter then s
      else
        let r := LM_body m target s
        if r.2 then LM_loop m target maxIter fuel r.1 (iterator + 1) else r.1
    else s

/-- `_compute_IK_LM`. -/
def compute_IK_LM {n : ℕ} {α : Type} (m : IKModel n α) (target : M4)
    (q0 : Fin n → ℝ) (maxIter : ℕ) : Fin n → ℝ :=
  let fk0 := m.fk q0
  let Ek0 := weightedEk (calc_pose_error target (m.pose fk0) 1e-12)
  (LM_loop m target maxIter (maxIter + 1) ⟨q0, fk0, Ek0⟩ 0).q

/-- C2: in an LM iteration that is actually executed (`Ek` above threshold,
iteration cap not yet reached), if the tentative step lowers the weighted
error the step is accepted and the loop continues with `Ek ← Ek2`; otherwise
`dq` is subtracted back off (restoring the previous joints exactly), forward
kinematics is recomputed at the reverted joints, and the loop terminates
immediately with that state — a single failed improvement attempt ends the
solve. -/
theorem C2_LM_accept_or_reject {n : ℕ} {α : Type} (m : IKModel n α) (target : M4)
    (maxIter fuel iterator : ℕ) (s : LMState n α)
    (h1 : s.Ek > 1e-12) (h2 : iterator + 1 ≤ maxIter) :
    (LM_trialEk m target s < s.Ek →
      LM_loop m target maxIter (fuel + 1) s iterator =
        LM_loop m target maxIter fuel
          ⟨fun i => s.q i + LM_dq m target s i,
            m.fk (fun i => s.q i + LM_dq m target s i), LM_trialEk m target s⟩
          (iterator + 1)) ∧
    (¬ LM_trialEk m target s < s.Ek →
      LM_loop m target maxIter (fuel + 1) s iterator = ⟨s.q, m.fk s.q, s.Ek⟩) := by
  have hrevert : (fun i => s.q i + LM_dq m target s i - LM_dq m target s i) = s.q := by
    funext i
    ring
  constructor
  · intro hacc
    simp only [LM_loop]
    rw [if_pos h1, if_neg (by omega)]
    simp only [LM_body, LM_trialEk] at hacc ⊢
    rw [if_pos hacc]
    simp
  · intro hrej
    simp only [LM_loop]
    rw [if_pos h1, if_neg (by omega)]
    simp only [LM_body, LM_trialEk] at hrej ⊢
    rw [if_neg hrej]
    simp [hrevert]

/-- A trivial concrete `IKModel` for the LM witness: constant identity pose,
zero Jacobian and pseudoinverses. -/
def IKM1 : IKModel 1 Unit :=
  ⟨fun _ => (), fun _ => 1, fun _ => 0, fun _ => 0, fun _ => 0⟩

/-- A concrete LM loop state with `Ek = 1`. -/
def LMs1 : LMState 1 Unit := ⟨fun _ => 0, (), 1⟩

/-- Witness for C2 at the concrete model `IKM1`, state `LMs1`, `maxIter = 1`,
`iterator = 0`. -/
theorem C2_LM_accept_or_reject_witness :
    (LMs1.Ek > 1e-12 ∧ 0 + 1 ≤ 1) ∧
    ((LM_trialEk IKM1 1 LMs1 < LMs1.Ek →
      LM_loop IKM1 1 1 1 LMs1 0 =
        LM_loop IKM1 1 1 0
          ⟨fun i => LMs1.q i + LM_dq IKM1 1 LMs1 i,
            IKM1.fk (fun i => LMs1.q i + LM_dq IKM1 1 LMs1 i), LM_trialEk IKM1 1 LMs1⟩
          (0 + 1)) ∧
    (¬ LM_trialEk IKM1 1 LMs1 < LMs1.Ek →
      LM_loop IKM1 1 1 1 LMs1 0 = ⟨LMs1.q, IKM1.fk LMs1.q, LMs1.Ek⟩)) :=
  ⟨⟨by norm_num [LMs1], by norm_num⟩,
    C2_LM_accept_or_reject IKM1 1 1 0 0 LMs1 (by norm_num [LMs1]) (by norm_num)⟩

/-!
## Cartesian planner (`pykin/planners/cartesian_planner.py`)
-/

/-- Python float modulo `a % b` (`a − b·⌊a/b⌋`), used by the waypoint-recording
condition `step % (1/resolution) == 0`. -/
def pymod (a b : ℝ) : ℝ := a - b * (⌊a / b⌋ : ℝ)

/-- Modelled from the spec: `compute_pose_error` comes from
`pykin/utils/transform_utils.py`, which is not among the given sources; the
spec says the planner "checks whether the final position is within
`pos_sensitivity` of the true goal", so it is modelled as the Euclidean
distance between the goal position and the current end-effector position. -/
def compute_pose_error (goal cur : V3) : ℝ := norm3 (fun i => goal i - cur i)

/-- Abstract interface for the parts of the Cartesian planner implemented
outside the given sources: the robot's forward kinematics over its desired
frames (`α` is the transformation dictionary), end-effector pose extraction,
the Jacobian, numpy's `pinv`, `get_h_mat` over a waypoint (`β` the orientation
representation), and the collision / joint-limit predicates. -/
structure CartModel (n : ℕ) (α β : Type) where
  fk : (Fin n → ℝ) → α
  eefTransform : α → M4
  eefPos : α → V3
  jacobian : α → Matrix (Fin 6) (Fin n) ℝ
  pinvnn : Matrix (Fin n) (Fin n) ℝ → Matrix (Fin n) (Fin n) ℝ
  getHMat : V3 → β → M4
  collisionFree : (Fin n → ℝ) → Bool
  inLimits : (Fin n → ℝ) → Bool

/-- The running state of the waypoint sweep in
`_compute_path_and_target_pose`: the cached FK result, the current
end-effector transform, `self._cur_qpos`, and the accumulated
`paths` / `target_posistions` lists. -/
structure SweepState (n : ℕ) (α : Type) where
  curFk : α
  curTransform : M4
  qpos : Fin n → ℝ
  paths : List (Fin n → ℝ)
  targets : List V3

/-- One waypoint of the inner `for step, (pos, ori) in enumerate(waypoints)`
loop: damped-least-squares step, joint update (which is kept even when the
collision/limit check fails — the `continue` only skips the FK refresh and the
recording), and recording at the resolution stride or at the last waypoint. -/
def sweep_step {n : ℕ} {α β : Type} (m : CartModel n α β)
    (resolution damping epsilon : ℝ) (numWp : ℕ)
    (s : SweepState n α) (iwp : ℕ × V3 × β) : SweepState n α :=
  let target_transform := m.getHMat iwp.2.1 iwp.2.2
  let err_pose := calc_pose_error target_transform s.curTransform epsilon
  let J := m.jacobian s.curFk
  let Jh := m.pinvnn (J.transpose * J + damping ^ 2 • (1 : Matrix (Fin n) (Fin n) ℝ)) *
    J.transpose
  let dq := fun i => damping * Matrix.mulVec Jh err_pose i
  let q2 := fun i => s.qpos i + dq i
  if ¬ m.collisionFree q2 = true then { s with qpos := q2 }
  else if ¬ m.inLimits q2 = true then { s with qpos := q2 }
  else
    let fk2 := m.fk q2
    let t2 := m.eefTransform fk2
    if pymod ((iwp.1 : ℕ) : ℝ) (1 / resolution) = 0 ∨ iwp.1 = numWp - 1 then
      ⟨fk2, t2, q2, s.paths ++ [q2], s.targets ++ [iwp.2.1]⟩
    else
      ⟨fk2, t2, q2, s.paths, s.targets⟩

/-- The full inner sweep over the enumerated waypoint list. -/
def sweep {n : ℕ} {α β : Type} (m : CartModel n α β)
    (resolution damping epsilon : ℝ) (wps : List (V3 × β)) (s : SweepState n α) :
    SweepState n α :=
  wps.enum.foldl (sweep_step m resolution damping epsilon wps.length) s

/-- The state reached by one whole waypoint sweep started from joints `q`
(with `paths` seeded as `[q]` and `target_posistions` as the current
end-effector position, as at the top of the `while` body). -/
def sweep_from {n : ℕ} {α β : Type} (m : CartModel n α β) (wps : List (V3 × β))
    (resolution damping epsilon : ℝ) (q : Fin n → ℝ) : SweepState n α :=
  let fk0 := m.fk q
  sweep m resolution damping epsilon wps ⟨fk0, m.eefTransform fk0, q, [q], [m.eefPos fk0]⟩

/-- The goal-position error measured after a sweep from `q`. -/
def sweep_err {n : ℕ} {α β : Type} (m : CartModel n α β) (goalPos : V3)
    (wps : List (V3 × β)) (resolution damping epsilon : ℝ) (q : Fin n → ℝ) : ℝ :=
  compute_pose_error goalPos (m.eefPos (sweep_from m wps resolution damping epsilon q).curFk)

/-- The retry loop (`while True` with `total_cnt = 10`) of
`_compute_path_and_target_pose`: `cnt` is incremented at the top of each pass,
success breaks with the recorded paths, exhaustion (`cnt > 10`) breaks with
`None, None`, and otherwise the next pass starts from the joints the failed
sweep ended at. -/
def cart_loop {n : ℕ} {α β : Type} (m : CartModel n α β) (goalPos : V3)
    (wps : List (V3 × β)) (resolution damping epsilon pos_sensitivity : ℝ) :
    ℕ → ℕ → (Fin n → ℝ) →
      Option (List (Fin n → ℝ)) × Option (List V3) × (Fin n → ℝ)
  | 0, _, q => (none, none, q)
  | fuel + 1, cnt, q =>
    let sEnd := sweep_from m wps resolution damping epsilon q
    if sweep_err m goalPos wps resolution damping epsilon q < pos_sensitivity then
      (some sEnd.paths, some sEnd.targets, sEnd.qpos)
    else if cnt + 1 > 10 then (none, none, sEnd.qpos)
    else
      cart_loop m goalPos wps resolution damping epsilon pos_sensitivity fuel (cnt + 1)
        sEnd.qpos

/-- `_compute_path_and_target_pose` (fuel 12 strictly dominates the 11 passes
the counter allows). -/
def compute_path_and_target_pose {n : ℕ} {α β : Type} (m : CartModel n α β)
    (goalPos : V3) (wps : List (V3 × β))
    (resolution damping epsilon pos_sensitivity : ℝ) (q0 : Fin n → ℝ) :
    Option (List (Fin n → ℝ)) × Option (List V3) :=
  let out := cart_loop m goalPos wps resolution damping epsilon pos_sensitivity 12 0 q0
  (out.1, out.2.1)

/-- `get_path_in_joinst_space` with explicit waypoints: `is_get_path` is set
exactly when the returned paths are not `None`. -/
def get_path_in_joinst_space {n : ℕ} {α β : Type} (m : CartModel n α β)
    (goalPos : V3) (wps : List (V3 × β))
    (resolution damping epsilon pos_sensitivity : ℝ) (q0 : Fin n → ℝ) :
    Option (List (Fin n → ℝ)) × Bool × Option (List V3) :=
  let pt := compute_path_and_target_pose m goalPos wps resolution damping epsilon
    pos_sensitivity q0
  (pt.1, pt.1.isSome, pt.2)

theorem sweep_step_paths_ne_nil {n : ℕ} {α β : Type} (m : CartModel n α β)
    (resolution damping epsilon : ℝ) (numWp : ℕ) (s : SweepState n α)
    (iwp : ℕ × V3 × β) (h : s.paths ≠ []) :
    (sweep_step m resolution damping epsilon numWp s iwp).paths ≠ [] := by
  simp only [sweep_step]
  split_ifs <;> simp_all

theorem sweep_paths_ne_nil {n : ℕ} {α β : Type} (m : CartModel n α β)
    (resolution damping epsilon : ℝ) (N : ℕ) (l : List (ℕ × V3 × β)) :
    ∀ s : SweepState n α, s.paths ≠ [] →
      (l.foldl (sweep_step m resolution damping epsilon N) s).paths ≠ [] := by
  induction l with
  | nil => intro s h; simpa using h
  | cons a t ih =>
    intro s h
    exact ih _ (sweep_step_paths_ne_nil m resolution damping epsilon N s a h)

theorem sweep_from_paths_ne_nil {n : ℕ} {α β : Type} (m : CartModel n α β)
    (wps : List (V3 × β)) (resolution damping epsilon : ℝ) (q : Fin n → ℝ) :
    (sweep_from m wps resolution damping epsilon q).paths ≠ [] := by
  simp only [sweep_from, sweep]
  exact sweep_paths_ne_nil m resolution damping epsilon wps.length wps.enum _ (by simp)

theorem cart_loop_all_fail {n : ℕ} {α β : Type} (m : CartModel n α β) (goalPos : V3)
    (wps : List (V3 × β)) (resolution damping epsilon pos_sensitivity : ℝ)
    (hall : ∀ q2, ¬ sweep_err m goalPos wps resolution damping epsilon q2 < pos_sensitivity) :
    ∀ fuel cnt q,
      (cart_loop m goalPos wps resolution damping epsilon pos_sensitivity fuel cnt q).1 = none ∧
      (cart_loop m goalPos wps resolution damping epsilon pos_sensitivity fuel cnt q).2.1 = none := by
  intro fuel
  induction fuel with
  | zero => intro cnt q; simp [cart_loop]
  | succ f ih =>
    intro cnt q
    simp only [cart_loop]
    rw [if_neg (hall q)]
    by_cases hc : cnt + 1 > 10
    · rw [if_pos hc]
      exact ⟨rfl, rfl⟩
    · rw [if_neg hc]
      exact ih (cnt + 1) _

/-- C4: the Cartesian planner's retry policy.  After a waypoint sweep, (i) if
the final end-effector position is within `pos_sensitivity` of the goal the
loop returns the recorded (never empty) path list; (ii) if not and the
incremented counter exceeds `total_cnt = 10` it returns `None, None`; (iii)
otherwise the whole sweep is retried from the joints the failed sweep left
behind; (iv) if the error check fails for every start the wrapper reports no
path and `is_get_path = False`; and (v) `is_get_path` is exactly "the paths
are not `None`". -/
theorem C4_cartesian_planner_retry {n : ℕ} {α β : Type} (m : CartModel n α β)
    (goalPos : V3) (wps : List (V3 × β))
    (resolution damping epsilon pos_sensitivity : ℝ) (fuel cnt : ℕ) (q : Fin n → ℝ) :
    (sweep_err m goalPos wps resolution damping epsilon q < pos_sensitivity →
      cart_loop m goalPos wps resolution damping epsilon pos_sensitivity (fuel + 1) cnt q =
        (some (sweep_from m wps resolution damping epsilon q).paths,
          some (sweep_from m wps resolution damping epsilon q).targets,
          (sweep_from m wps resolution damping epsilon q).qpos) ∧
      (sweep_from m wps resolution damping epsilon q).paths ≠ []) ∧
    (¬ sweep_err m goalPos wps resolution damping epsilon q < pos_sensitivity →
      cnt + 1 > 10 →
      cart_loop m goalPos wps resolution damping epsilon pos_sensitivity (fuel + 1) cnt q =
        (none, none, (sweep_from m wps resolution damping epsilon q).qpos)) ∧
    (¬ sweep_err m goalPos wps resolution damping epsilon q < pos_sensitivity →
      cnt + 1 ≤ 10 →
      cart_loop m goalPos wps resolution damping epsilon pos_sensitivity (fuel + 1) cnt q =
        cart_loop m goalPos wps resolution damping epsilon pos_sensitivity fuel (cnt + 1)
          (sweep_from m wps resolution damping epsilon q).qpos) ∧
    ((∀ q2, ¬ sweep_err m goalPos wps resolution damping epsilon q2 < pos_sensitivity) →
      get_path_in_joinst_space m goalPos wps resolution damping epsilon pos_sensitivity q =
        (none, false, none)) ∧
    ((get_path_in_joinst_space m goalPos wps resolution damping epsilon
        pos_sensitivity q).2.1 =
      (get_path_in_joinst_space m goalPos wps resolution damping epsilon
        pos_sensitivity q).1.isSome) := by
  refine ⟨?_, ?_, ?_, ?_, rfl⟩
  · intro hsucc
    constructor
    · simp only [cart_loop]
      rw [if_pos hsucc]
    · exact sweep_from_paths_ne_nil m wps resolution damping epsilon q
  · intro hfail hcap
    simp only [cart_loop]
    rw [if_neg hfail, if_pos hcap]
  · intro hfail hcap
    simp only [cart_loop]
    rw [if_neg hfail, if_neg (by omega)]
  · intro hall
    have h12 := cart_loop_all_fail m goalPos wps resolution damping epsilon
      pos_sensitivity hall 12 0 q
    simp only [get_path_in_joinst_space, compute_path_and_target_pose]
    rw [Prod.ext_iff, Prod.ext_iff]
    exact ⟨h12.1, by simp [h12.1], h12.2⟩

/-- A trivial concrete Cartesian-planner model for the witness. -/
def CM1 : CartModel 1 Unit Unit :=
  ⟨fun _ => (), fun _ => 1, fun _ _ => 0, fun _ => 0, fun _ => 0, fun _ _ => 1,
    fun _ => true, fun _ => true⟩

theorem CM1_sweep_err (q : Fin 1 → ℝ) :
    sweep_err CM1 (fun _ => 0) [] 1 (1 / 2) 1e-12 q = 0 := by
  simp [sweep_err, sweep_from, sweep, compute_pose_error, norm3, CM1, List.enum]

/-- Witness for C4: with an empty waypoint list and a zero-error model, the
success branch fires on the first pass and returns the seeded one-element
path. -/
theorem C4_cartesian_planner_retry_witness :
    sweep_err CM1 (fun _ => 0) [] 1 (1 / 2) 1e-12 (fun _ => 0) < (3 / 100 : ℝ) ∧
    cart_loop CM1 (fun _ => 0) [] 1 (1 / 2) 1e-12 (3 / 100) 1 0 (fun _ => 0) =
      (some (sweep_from CM1 [] 1 (1 / 2) 1e-12 (fun _ => 0)).paths,
        some (sweep_from CM1 [] 1 (1 / 2) 1e-12 (fun _ => 0)).targets,
        (sweep_from CM1 [] 1 (1 / 2) 1e-12 (fun _ => 0)).qpos) := by
  have herr : sweep_err CM1 (fun _ => 0) [] 1 (1 / 2) 1e-12 (fun _ => 0) < (3 / 100 : ℝ) := by
    rw [CM1_sweep_err]
    norm_num
  exact ⟨herr,
    ((C4_cartesian_planner_retry CM1 (fun _ => 0) [] 1 (1 / 2) 1e-12 (3 / 100) 0 0
      (fun _ => 0)).1 herr).1⟩

/-!
## Grasp directions (`pykin/utils/action_utils.py`, `pykin/tasks/grasp.py`)
-/

/-- `np.dot` on 3-vectors. -/
def dot3 (a b : V3) : ℝ := a 0 * b 0 + a 1 * b 1 + a 2 * b 2

/-- `normalize(vec) = vec / np.linalg.norm(vec)`. -/
def normalize3 (vec : V3) : V3 := fun i => vec i / norm3 vec

/-- `projection(v, u) = np.dot(v, u) / np.dot(u, u) * u`. -/
def projection (v u : V3) : V3 := fun i => dot3 v u / dot3 u u * u i

/-- `np.linspace a b n`: `n` evenly spaced samples from `a` to `b` inclusive. -/
def linspace (a b : ℝ) : ℕ → List ℝ
  | 0 => []
  | 1 => [a]
  | m + 2 => (List.range (m + 2)).map (fun i : ℕ => a + (b - a) * (i : ℝ) / ((m : ℝ) + 1))

/-- `np.eye(3)[0]`. -/
def axisE1 : V3 := ![1, 0, 0]

/-- `np.eye(3)[1]`. -/
def axisE2 : V3 := ![0, 1, 0]

/-- The first Gram-Schmidt basis vector `v1` shared by both direction
generators. -/
def graspV1 (line : V3) : V3 :=
  let norm_vector := normalize3 line
  normalize3 (fun i => axisE1 i - projection axisE1 norm_vector i)

/-- The second Gram-Schmidt basis vector `v2`. -/
def graspV2 (line : V3) : V3 :=
  let norm_vector := normalize3 line
  let v1 := graspV1 line
  normalize3 (fun i => axisE2 i - projection axisE2 norm_vector i - projection axisE2 v1 i)

/-- `cos θ · v1 + sin θ · v2`, the swept direction at angle `θ`. -/
def graspDir (line : V3) (theta : ℝ) : V3 :=
  fun i => Real.cos theta * graspV1 line i + Real.sin theta * graspV2 line i

/-- `pykin/utils/action_utils.py`, `get_grasp_directions(line, n_trials)`:
the sweep runs over `np.linspace(0, np.pi, n_trials)`. -/
def get_grasp_directions (line : V3) (n_trials : ℕ) : List V3 :=
  (linspace 0 Real.pi n_trials).map (graspDir line)

/-- `pykin/tasks/grasp.py`, `GraspManager._generate_grasp_directions(vector,
n_trials)`: the sweep runs over `np.linspace(-np.pi/2, np.pi/2, n_trials)`. -/
def generate_grasp_directions (vector : V3) (n_trials : ℕ) : List V3 :=
  (linspace (-(Real.pi / 2)) (Real.pi / 2) n_trials).map (graspDir vector)

/-- `np.cross` on 3-vectors. -/
def cross3 (a b : V3) : V3 :=
  ![a 1 * b 2 - a 2 * b 1, a 2 * b 0 - a 0 * b 2, a 0 * b 1 - a 1 * b 0]

/-- The TCP pose built per swept direction in `PickAction.get_tcp_poses`:
columns `x = y × z`, `y = normalize(line)`, `z = grasp_dir`, origin at the
contact midpoint, bottom row from `np.eye(4)`. -/
def tcp_pose_of (line grasp_dir center_point : V3) : M4 :=
  let y := normalize3 line
  let z := grasp_dir
  let x := cross3 y z
  !![x 0, y 0, z 0, center_point 0;
     x 1, y 1, z 1, center_point 1;
     x 2, y 2, z 2, center_point 2;
     0, 0, 0, 1]

/-- `PickAction.get_tcp_poses`, given the (externally sampled) force-closure
contact-point pairs: for each pair it sweeps the directions produced by
`action_utils.get_grasp_directions` on `line = p2 − p1`. -/
def get_tcp_poses_from_contacts (contact_points : List (V3 × V3)) (n_directions : ℕ) :
    List M4 :=
  contact_points.flatMap (fun cp =>
    let line := fun i => cp.2 i - cp.1 i
    let center_point := fun i => (cp.1 i + cp.2 i) / 2
    (get_grasp_directions line n_directions).map
      (fun dir => tcp_pose_of line dir center_point))

theorem norm3_zaxis : norm3 ![0, 0, 1] = 1 := by
  norm_num [norm3]

theorem normalize3_zaxis : normalize3 ![0, 0, 1] = ![0, 0, 1] := by
  funext i
  fin_cases i <;> norm_num [normalize3, norm3_zaxis]

theorem graspV1_zaxis : graspV1 ![0, 0, 1] = ![1, 0, 0] := by
  have hp : projection axisE1 (normalize3 ![0, 0, 1]) = fun _ => 0 := by
    funext i
    rw [normalize3_zaxis]
    norm_num [projection, dot3, axisE1]
  have hinner : (fun i => axisE1 i - projection axisE1 (normalize3 ![0, 0, 1]) i) = axisE1 := by
    funext i
    rw [hp]
    ring
  have hn : norm3 axisE1 = 1 := by norm_num [norm3, axisE1]
  simp only [graspV1, hinner]
  funext i
  fin_cases i <;> norm_num [normalize3, norm3, axisE1, Real.sqrt_one]

theorem graspV2_zaxis : graspV2 ![0, 0, 1] = ![0, 1, 0] := by
  have hp1 : projection axisE2 (normalize3 ![0, 0, 1]) = fun _ => 0 := by
    funext i
    rw [normalize3_zaxis]
    norm_num [projection, dot3, axisE2]
  have hp2 : projection axisE2 (graspV1 ![0, 0, 1]) = fun _ => 0 := by
    funext i
    rw [graspV1_zaxis]
    norm_num [projection, dot3, axisE2]
  have hinner : (fun i => axisE2 i - projection axisE2 (normalize3 ![0, 0, 1]) i -
      projection axisE2 (graspV1 ![0, 0, 1]) i) = axisE2 := by
    funext i
    rw [hp1, hp2]
    ring
  have hn : norm3 axisE2 = 1 := by norm_num [norm3, axisE2]
  simp only [graspV2, hinner]
  funext i
  fin_cases i <;> norm_num [normalize3, norm3, axisE2, Real.sqrt_one]

/-- Counterexample for C7: the claim attributes the `[−π/2, π/2]` sweep to the
pick-action path, but `PickAction.get_tcp_poses` uses
`action_utils.get_grasp_directions`, whose first angle is `0`: on the contact
line `(0,0,1)` with `n_trials = 2` the first produced direction is `v1 =
(1,0,0)`, while a sweep starting at `−π/2` would produce `−v2 = (0,−1,0)`,
which differs. -/
theorem C7_counterexample :
    (get_grasp_directions ![0, 0, 1] 2).head? = some (graspDir ![0, 0, 1] 0) ∧
    graspDir ![0, 0, 1] 0 = ![1, 0, 0] ∧
    graspDir ![0, 0, 1] (-(Real.pi / 2)) = ![0, -1, 0] ∧
    (![1, 0, 0] : V3) ≠ ![0, -1, 0] := by
  refine ⟨?_, ?_, ?_, ?_⟩
  · show ((linspace 0 Real.pi 2).map (graspDir ![0, 0, 1])).head? = _
    have h2 : linspace 0 Real.pi 2 = [0 + (Real.pi - 0) * ((0 : ℕ) : ℝ) / ((0 : ℝ) + 1),
        0 + (Real.pi - 0) * ((1 : ℕ) : ℝ) / ((0 : ℝ) + 1)] := by
      simp [linspace, List.range_succ]
    rw [h2]
    simp only [List.map_cons, List.head?_cons]
    congr 2
    norm_num
  · funext i
    rw [graspDir, graspV1_zaxis, graspV2_zaxis]
    fin_cases i <;> norm_num
  · funext i
    rw [graspDir, graspV1_zaxis, graspV2_zaxis]
    fin_cases i <;>
      norm_num [Real.cos_pi_div_two, Real.sin_pi_div_two]
  · intro h
    have h0 := congrFun h 0
    norm_num at h0

/-- C7 (amended): the angle ranges are swapped relative to the claim — the
generator used by `PickAction.get_tcp_poses` (`action_utils.
get_grasp_directions`) sweeps `n_trials` angles evenly spaced over `[0, π]`,
while `GraspManager._generate_grasp_directions` sweeps them evenly spaced over
`[−π/2, π/2]`; both produce `cos θ · v1 + sin θ · v2` over the Gram-Schmidt
basis perpendicular to the contact line. -/
theorem C7_grasp_direction_ranges (line : V3) (n k : ℕ) (hn : 2 ≤ n) (hk : k < n) :
    (get_grasp_directions line n)[k]? =
      some (graspDir line (0 + (Real.pi - 0) * (k : ℝ) / ((n : ℝ) - 1))) ∧
    (generate_grasp_directions line n)[k]? =
      some (graspDir line (-(Real.pi / 2) +
        (Real.pi / 2 - -(Real.pi / 2)) * (k : ℝ) / ((n : ℝ) - 1))) ∧
    ∀ p1 p2 : V3,
      (get_tcp_poses_from_contacts [(p1, p2)] n)[k]? =
        some (tcp_pose_of (fun i => p2 i - p1 i)
          (graspDir (fun i => p2 i - p1 i) (0 + (Real.pi - 0) * (k : ℝ) / ((n : ℝ) - 1)))
          (fun i => (p1 i + p2 i) / 2)) := by
  obtain ⟨m, rfl⟩ : ∃ m, n = m + 2 := ⟨n - 2, by omega⟩
  have hcast : ((m : ℝ) + 1) = ((m + 2 : ℕ) : ℝ) - 1 := by
    push_cast
    ring
  have hget : ∀ a b : ℝ, (linspace a b (m + 2))[k]? =
      some (a + (b - a) * (k : ℝ) / (((m + 2 : ℕ) : ℝ) - 1)) := by
    intro a b
    show ((List.range (m + 2)).map
      (fun i : ℕ => a + (b - a) * (i : ℝ) / ((m : ℝ) + 1)))[k]? = _
    rw [List.getElem?_map, List.getElem?_range hk]
    show some (a + (b - a) * (k : ℝ) / ((m : ℝ) + 1)) = _
    rw [hcast]
  refine ⟨?_, ?_, ?_⟩
  · rw [get_grasp_directions, List.getElem?_map, hget]
    rfl
  · rw [generate_grasp_directions, List.getElem?_map, hget]
    rfl
  · intro p1 p2
    simp only [get_tcp_poses_from_contacts, List.flatMap_cons, List.flatMap_nil,
      List.append_nil, get_grasp_directions, List.map_map]
    rw [List.getElem?_map, hget]
    rfl

/-- Witness for C7 at `line = (0,0,1)`, `n = 2`, `k = 0`. -/
theorem C7_grasp_direction_ranges_witness :
    (2 ≤ 2 ∧ 0 < 2) ∧
    ((get_grasp_directions ![0, 0, 1] 2)[0]? =
      some (graspDir ![0, 0, 1] (0 + (Real.pi - 0) * ((0 : ℕ) : ℝ) / (((2 : ℕ) : ℝ) - 1))) ∧
    (generate_grasp_directions ![0, 0, 1] 2)[0]? =
      some (graspDir ![0, 0, 1] (-(Real.pi / 2) +
        (Real.pi / 2 - -(Real.pi / 2)) * ((0 : ℕ) : ℝ) / (((2 : ℕ) : ℝ) - 1))) ∧
    ∀ p1 p2 : V3,
      (get_tcp_poses_from_contacts [(p1, p2)] 2)[0]? =
        some (tcp_pose_of (fun i => p2 i - p1 i)
          (graspDir (fun i => p2 i - p1 i)
            (0 + (Real.pi - 0) * ((0 : ℕ) : ℝ) / (((2 : ℕ) : ℝ) - 1)))
          (fun i => (p1 i + p2 i) / 2))) :=
  ⟨⟨by norm_num, by norm_num⟩,
    C7_grasp_direction_ranges ![0, 0, 1] 2 0 (by norm_num) (by norm_num)⟩

/-!
## Grasp pre/post poses (`pykin/action/pick.py`, `pykin/tasks/grasp.py`)
-/

/-- `PickAction.get_pre_grasp_pose`: rotation copied, position
`p − retreat_distance · R[:,2]`, bottom row from `np.eye(4)`. -/
def PickAction_get_pre_grasp_pose (retreat_distance : ℝ) (grasp_pose : M4) : M4 :=
  !![grasp_pose 0 0, grasp_pose 0 1, grasp_pose 0 2,
       grasp_pose 0 3 - retreat_distance * grasp_pose 0 2;
     grasp_pose 1 0, grasp_pose 1 1, grasp_pose 1 2,
       grasp_pose 1 3 - retreat_distance * grasp_pose 1 2;
     grasp_pose 2 0, grasp_pose 2 1, grasp_pose 2 2,
       grasp_pose 2 3 - retreat_distance * grasp_pose 2 2;
     0, 0, 0, 1]

/-- `PickAction.get_post_grasp_pose`: rotation copied, position
`p + [0, 0, retreat_distance]`. -/
def PickAction_get_post_grasp_pose (retreat_distance : ℝ) (grasp_pose : M4) : M4 :=
  !![grasp_pose 0 0, grasp_pose 0 1, grasp_pose 0 2, grasp_pose 0 3 + 0;
     grasp_pose 1 0, grasp_pose 1 1, grasp_pose 1 2, grasp_pose 1 3 + 0;
     grasp_pose 2 0, grasp_pose 2 1, grasp_pose 2 2,
       grasp_pose 2 3 + retreat_distance;
     0, 0, 0, 1]

/-- `GraspManager.get_pre_grasp_pose(grasp_pose, desired_distance)` — the same
backward-offset formula as the pick-action one. -/
def GraspManager_get_pre_grasp_pose (grasp_pose : M4) (desired_distance : ℝ) : M4 :=
  !![grasp_pose 0 0, grasp_pose 0 1, grasp_pose 0 2,
       grasp_pose 0 3 - desired_distance * grasp_pose 0 2;
     grasp_pose 1 0, grasp_pose 1 1, grasp_pose 1 2,
       grasp_pose 1 3 - desired_distance * grasp_pose 1 2;
     grasp_pose 2 0, grasp_pose 2 1, grasp_pose 2 2,
       grasp_pose 2 3 - desired_distance * grasp_pose 2 2;
     0, 0, 0, 1]

/-- Abstract interface to the IK / FK / collision machinery used by
`GraspManager.filter_grasps` (implemented outside the given sources). -/
structure GraspFilterModel (J T : Type) where
  ik : M4 → Option J
  forward_kin : J → T
  eefPose : T → M4
  check_ik_solution : M4 → M4 → Bool
  collision_free : T → Bool

/-- `GraspManager.filter_grasps`: scans the candidate list; on the first
candidate whose grasp and pre-grasp poses both pass the IK and collision
checks it stores `pre_grasp_pose` and sets `post_grasp_pose := pre_grasp_pose`
and stops; returns `None`s when the list is exhausted.  The unchecked
`pre_qpos = None` path (the code calls `forward_kin(np.array(None))`) is
modelled as an error. -/
def GraspManager_filter_grasps {J T γ δ : Type} (m : GraspFilterModel J T)
    (desired_distance : ℝ) :
    List (M4 × M4 × γ × δ) → Except String (Option ((M4 × M4 × γ × δ) × M4 × M4))
  | [] => .ok none
  | c :: rest =>
    match m.ik c.1 with
    | none => GraspManager_filter_grasps m desired_distance rest
    | some qpos =>
      let transforms := m.forward_kin qpos
      let goal_pose := m.eefPose transforms
      if m.check_ik_solution c.1 goal_pose && m.collision_free transforms then
        let pre_grasp_pose := GraspManager_get_pre_grasp_pose c.1 desired_distance
        match m.ik pre_grasp_pose with
        | none => .error "TypeError"
        | some pre_qpos =>
          let pre_transforms := m.forward_kin pre_qpos
          let pre_goal_pose := m.eefPose pre_transforms
          if m.check_ik_solution pre_grasp_pose pre_goal_pose &&
              m.collision_free pre_transforms then
            .ok (some (c, pre_grasp_pose, pre_grasp_pose))
          else GraspManager_filter_grasps m desired_distance rest
      else GraspManager_filter_grasps m desired_distance rest

/-- An always-succeeding filter model for the C8 counterexample/witness. -/
def GFM1 : GraspFilterModel Unit Unit :=
  ⟨fun _ => some (), fun _ => (), fun _ => 1, fun _ _ => true, fun _ => true⟩

/-- Counterexample for C8: in the grasp-manager path the "derived post-grasp
pose" (the `post_grasp_pose` recorded by `filter_grasps` and returned as the
`post_grasp` waypoint) is the pre-grasp pose, not `p + [0,0,d]`: at the
identity grasp pose with `d = 1/10` its position has z-entry `−1/10`, whereas
the claim demands `+1/10`. -/
theorem C8_counterexample :
    GraspManager_filter_grasps GFM1 (1 / 10)
        [((1 : M4), (1 : M4), (), ())] =
      .ok (some (((1 : M4), (1 : M4), (), ()),
        GraspManager_get_pre_grasp_pose (1 : M4) (1 / 10),
        GraspManager_get_pre_grasp_pose (1 : M4) (1 / 10))) ∧
    GraspManager_get_pre_grasp_pose (1 : M4) (1 / 10) 2 3 = -(1 / 10) ∧
    (1 : M4) 2 3 + 1 / 10 = 1 / 10 ∧
    (-(1 / 10) : ℝ) ≠ 1 / 10 := by
  refine ⟨rfl, ?_, ?_, by norm_num⟩
  · show (1 : M4) 2 3 - 1 / 10 * (1 : M4) 2 2 = -(1 / 10)
    rw [Matrix.one_apply_ne (by decide), Matrix.one_apply_eq]
    norm_num
  · rw [Matrix.one_apply_ne (by decide)]
    norm_num

/-- C8 (amended): the pre-grasp pose keeps the rotation and has position
`p − d·R[:,2]` in both the pick-action and grasp-manager paths, and the
pick-action post-grasp pose keeps the rotation and has position
`p + [0, 0, d]`; but in the grasp-manager path the post-grasp pose produced by
a successful `filter_grasps` equals the pre-grasp pose (position
`p − d·R[:,2]`), not `p + [0, 0, d]`. -/
theorem C8_pre_post_grasp_offsets (d : ℝ) (g : M4) :
    (∀ i j : Fin 4, (i : ℕ) < 3 → (j : ℕ) < 3 →
      PickAction_get_pre_grasp_pose d g i j = g i j ∧
      PickAction_get_post_grasp_pose d g i j = g i j ∧
      GraspManager_get_pre_grasp_pose g d i j = g i j) ∧
    (∀ i : Fin 4, (i : ℕ) < 3 →
      PickAction_get_pre_grasp_pose d g i 3 = g i 3 - d * g i 2 ∧
      GraspManager_get_pre_grasp_pose g d i 3 = g i 3 - d * g i 2) ∧
    (PickAction_get_post_grasp_pose d g 0 3 = g 0 3 ∧
      PickAction_get_post_grasp_pose d g 1 3 = g 1 3 ∧
      PickAction_get_post_grasp_pose d g 2 3 = g 2 3 + d) ∧
    (∀ (J T γ δ : Type) (m : GraspFilterModel J T) (cands : List (M4 × M4 × γ × δ))
        (c : M4 × M4 × γ × δ) (pre post : M4),
      GraspManager_filter_grasps m d cands = .ok (some (c, pre, post)) →
      post = pre ∧ pre = GraspManager_get_pre_grasp_pose c.1 d) := by
  refine ⟨?_, ?_, ⟨show g 0 3 + 0 = g 0 3 from by ring,
    show g 1 3 + 0 = g 1 3 from by ring, rfl⟩, ?_⟩
  · intro i j hi hj
    fin_cases i <;> fin_cases j <;>
      first
      | exact absurd hi (by decide)
      | exact absurd hj (by decide)
      | exact ⟨rfl, rfl, rfl⟩
  · intro i hi
    fin_cases i <;>
      first
      | exact absurd hi (by decide)
      | exact ⟨rfl, rfl⟩
  · intro J T γ δ m cands
    induction cands with
    | nil =>
      intro c pre post h
      simp [GraspManager_filter_grasps] at h
    | cons a rest ih =>
      intro c pre post h
      rw [GraspManager_filter_grasps] at h
      rcases hik : m.ik a.1 with _ | qpos
      · rw [hik] at h
        exact ih c pre post h
      · simp only [hik] at h
        by_cases h1 : (m.check_ik_solution a.1 (m.eefPose (m.forward_kin qpos)) &&
            m.collision_free (m.forward_kin qpos)) = true
        · rw [if_pos h1] at h
          rcases hik2 : m.ik (GraspManager_get_pre_grasp_pose a.1 d) with _ | pq
          · simp [hik2] at h
          · simp only [hik2] at h
            by_cases h2 : (m.check_ik_solution (GraspManager_get_pre_grasp_pose a.1 d)
                (m.eefPose (m.forward_kin pq)) &&
                m.collision_free (m.forward_kin pq)) = true
            · rw [if_pos h2] at h
              injection h with h4
              injection h4 with h5
              injection h5 with hA hBC
              injection hBC with hB hC
              subst hA
              subst hB
              subst hC
              exact ⟨rfl, rfl⟩
            · rw [if_neg h2] at h
              exact ih c pre post h
        · rw [if_neg h1] at h
          exact ih c pre post h

/-- Witness for C8 at `d = 1/10`, `g = 1`, with the always-succeeding filter
model on a single identity candidate. -/
theorem C8_pre_post_grasp_offsets_witness :
    PickAction_get_post_grasp_pose (1 / 10) (1 : M4) 2 3 = (1 : M4) 2 3 + 1 / 10 ∧
    (GraspManager_filter_grasps GFM1 (1 / 10)
        [((1 : M4), (1 : M4), (), ())] =
      .ok (some (((1 : M4), (1 : M4), (), ()),
        GraspManager_get_pre_grasp_pose (1 : M4) (1 / 10),
        GraspManager_get_pre_grasp_pose (1 : M4) (1 / 10))) →
      GraspManager_get_pre_grasp_pose (1 : M4) (1 / 10) =
        GraspManager_get_pre_grasp_pose (1 : M4) (1 / 10) ∧
      GraspManager_get_pre_grasp_pose (1 : M4) (1 / 10) =
        GraspManager_get_pre_grasp_pose
          (((1 : M4), (1 : M4), (), ()) : M4 × M4 × Unit × Unit).1 (1 / 10)) :=
  ⟨(C8_pre_post_grasp_offsets (1 / 10) (1 : M4)).2.2.1.2.2,
    (C8_pre_post_grasp_offsets (1 / 10) (1 : M4)).2.2.2 Unit Unit Unit Unit GFM1
      [((1 : M4), (1 : M4), (), ())] ((1 : M4), (1 : M4), (), ())
      (GraspManager_get_pre_grasp_pose (1 : M4) (1 / 10))
      (GraspManager_get_pre_grasp_pose (1 : M4) (1 / 10))⟩

end

/-!
## Scene manager (`pykin/scene/scene.py`)

The scene claims are about registry membership and logical-state bookkeeping,
not matrix arithmetic, so the pose type `P` is kept abstract (with the
relative-transform helper from `task_utils` passed in as a function) and the
collision managers are modelled by the lists of object names they hold.
Python exceptions (`ValueError`, `KeyError`, `AttributeError`) become
`Except String` errors.
-/

/-- A scene object (the record held in `SceneManager.objs`): name, geometry
type, geometry parameters (opaque strings here), pose, color. -/
structure Obj (P : Type) where
  name : String
  gtype : String
  gparam : String
  hMat : P
  color : String
deriving DecidableEq

/-- One `[name, gtype, gparam, h_mat]` entry as stored in `robot.info` and
`gripper.info`. -/
structure GeomInfo (P : Type) where
  name : String
  gtype : String
  gparam : String
  hMat : P
deriving DecidableEq

/-- The gripper state touched by attach/detach. -/
structure Gripper (P : Type) where
  gripperPose : P
  isAttached : Bool
  attachedObjName : Option String
  info : List (String × GeomInfo P)
deriving DecidableEq

/-- The robot state touched by the scene manager. -/
structure RobotState (P : Type) where
  hasGripper : Bool
  gripper : Gripper P
  infoCollision : List (String × GeomInfo P)
  infoVisual : List (String × GeomInfo P)
deriving DecidableEq

/-- A per-entity logical state: the five predicates of `State`.  `on` and
`holding` hold `Object` references, `support` a list of them. -/
structure LState (P : Type) where
  onObj : Option (Obj P) := none
  support : Option (List (Obj P)) := none
  static : Option Bool := none
  held : Option Bool := none
  holding : Option (Obj P) := none
deriving DecidableEq

/-- `SceneManager` state.  `attachedObjName` models the Python instance
attribute `self.attached_obj_name`, which does not exist (`none`) until the
first attach and — notably — is never cleared by detach. -/
structure SceneMngr (P : Type) where
  objs : List (String × Obj P)
  robot : Option (RobotState P)
  objCollisionMngr : List String
  robotCollisionMngr : List String
  gripperCollisionMngr : List String
  isAttached : Bool
  attachedObjName : Option String
  transformBetGripperNObj : Option P
  logicalStates : List (String × LState P)
deriving DecidableEq

/-- Ordered-dict value update `d[k] = v` at a key that is already present
(keeps the key's position; all callers guard presence). -/
def alistSet {γ : Type} (l : List (String × γ)) (k : String) (v : γ) :
    List (String × γ) :=
  l.map (fun p => if p.1 = k then (k, v) else p)

/-- Ordered-dict deletion `d.pop(k)`. -/
def alistRemove {γ : Type} (l : List (String × γ)) (k : String) :
    List (String × γ) :=
  l.filter (fun p => p.1 != k)

/-- `SceneManager.add_object`: rejects duplicate names, otherwise registers
the object and adds its geometry to the object collision manager. -/
def add_object {P : Type} (s : SceneMngr P) (name gtype gparam : String) (h_mat : P)
    (color : String) : Except String (SceneMngr P) :=
  if (s.objs.lookup name).isSome then
    .error ("Duplicate name: object " ++ name ++ " already exists")
  else
    .ok { s with
      objs := s.objs ++ [(name, ⟨name, gtype, gparam, h_mat, color⟩)],
      objCollisionMngr := s.objCollisionMngr ++ [name] }

/-- `SceneManager.remove_object`: fails when the name is missing. -/
def remove_object {P : Type} (s : SceneMngr P) (name : String) :
    Except String (SceneMngr P) :=
  if (s.objs.lookup name).isSome then
    .ok { s with
      objs := alistRemove s.objs name,
      objCollisionMngr := s.objCollisionMngr.filter (fun x => x != name) }
  else .error ("object " ++ name ++ " needs to be added first")

/-- `SceneManager.attach_object_on_gripper(name, only_gripper)`: requires a
robot (and, for `get_gripper_pose`, a gripper) and a registered object; sets
the attach flags and names, removes the object from the object collision
manager, records the gripper-to-object relative transform (`relT`, the
`get_relative_transform` helper), copies the geometry into the gripper (and,
unless `only_gripper`, robot) managers and info dicts, and finally pops the
object from the registry.  (In Python the flag mutations made before a
missing-gripper crash would survive; no claim inspects that partial state.) -/
def attach_object_on_gripper {P : Type} (relT : P → P → P) (s : SceneMngr P)
    (name : String) (only_gripper : Bool) : Except String (SceneMngr P) :=
  match s.robot with
  | none => .error "Robot needs to be added first"
  | some robot =>
    match s.objs.lookup name with
    | none => .error ("object " ++ name ++ " needs to be added first")
    | some obj =>
      if robot.hasGripper = false then .error "Robot doesn't have a gripper"
      else
        let ginfo : GeomInfo P := ⟨obj.name, obj.gtype, obj.gparam, obj.hMat⟩
        .ok { s with
          isAttached := true,
          attachedObjName := some obj.name,
          objCollisionMngr := s.objCollisionMngr.filter (fun x => x != name),
          transformBetGripperNObj := some (relT robot.gripper.gripperPose obj.hMat),
          robot := some { robot with
            gripper := { robot.gripper with
              isAttached := true,
              attachedObjName := some obj.name,
              info := robot.gripper.info ++ [(name, ginfo)] },
            infoCollision :=
              if only_gripper then robot.infoCollision
              else robot.infoCollision ++ [(name, ginfo)],
            infoVisual :=
              if only_gripper then robot.infoVisual
              else robot.infoVisual ++ [(name, ginfo)] },
          robotCollisionMngr :=
            if only_gripper then s.robotCollisionMngr
            else s.robotCollisionMngr ++ [name],
          gripperCollisionMngr := s.gripperCollisionMngr ++ [name],
          objs := alistRemove s.objs name }

/-- `SceneManager.detach_object_from_gripper(only_gripper)`: requires a robot;
reads `self.attached_obj_name` (AttributeError when no attach ever happened);
pops the geometry out of the robot (unless `only_gripper`) and gripper
managers and info dicts (`dict.pop` without a default: KeyError when absent,
as after a second detach) and clears the attach flags.  It does NOT re-add
the object to `self.objs` or to the object collision manager, and it does not
clear the scene-level `attached_obj_name`. -/
def detach_object_from_gripper {P : Type} (s : SceneMngr P) (only_gripper : Bool) :
    Except String (SceneMngr P) :=
  match s.robot with
  | none => .error "Robot needs to be added first"
  | some robot =>
    match s.attachedObjName with
    | none => .error "AttributeError: attached_obj_name"
    | some aname =>
      let step1 : Except String (RobotState P × List String) :=
        cond only_gripper (.ok (robot, s.robotCollisionMngr))
          (match robot.infoCollision.lookup aname with
          | none => .error ("KeyError: " ++ aname)
          | some _ =>
            .ok ({ robot with
                infoCollision := alistRemove robot.infoCollision aname,
                infoVisual := alistRemove robot.infoVisual aname },
              s.robotCollisionMngr.filter (fun x => x != aname)))
      match step1 with
      | .error e => .error e
      | .ok (robot1, rcm) =>
        match robot1.gripper.info.lookup aname with
        | none => .error ("KeyError: " ++ aname)
        | some _ =>
          .ok { s with
            robot := some { robot1 with
              gripper := { robot1.gripper with
                info := alistRemove robot1.gripper.info aname,
                isAttached := false,
                attachedObjName := none } },
            robotCollisionMngr := rcm,
            gripperCollisionMngr := s.gripperCollisionMngr.filter (fun x => x != aname),
            isAttached := false }

/-- `SceneManager.get_object_pose`. -/
def get_object_pose {P : Type} (s : SceneMngr P) (name : String) : Except String P :=
  match s.objs.lookup name with
  | none => .error ("object " ++ name ++ " needs to be added first")
  | some o => .ok o.hMat

/-- `SceneManager.set_object_pose` (the `(4,4)` shape check is vacuous for the
abstract pose type). -/
def set_object_pose {P : Type} (s : SceneMngr P) (name : String) (pose : P) :
    Except String (SceneMngr P) :=
  match s.objs.lookup name with
  | none => .error ("object " ++ name ++ " needs to be added first")
  | some o => .ok { s with objs := alistSet s.objs name { o with hMat := pose } }

/-- The truthiness test `if not B_state.get(support):` — a missing `support`
entry and an empty list both reset the list to `[]`; a non-empty list is
kept. -/
def support_base {P : Type} (o : Option (List (Obj P))) : List (Obj P) :=
  match o with
  | some (x :: xs) => x :: xs
  | _ => []

/-- The `on` clause of one `update_logical_states` iteration: when the entry
records `on = B`, ensure B's `support` entry is a (possibly empty) list and
append `objs[name]` to it if not already present.  (Python membership is by
object identity; structural equality is used here, which can only make the
membership test coarser and does not affect the containment invariant.) -/
def apply_on_clause {P : Type} [DecidableEq P] (objs : List (String × Obj P))
    (mp : List (String × LState P)) (name : String) (st : LState P) :
    Except String (List (String × LState P)) :=
  match st.onObj with
  | none => .ok mp
  | some b =>
    match mp.lookup b.name with
    | none => .error ("KeyError: " ++ b.name)
    | some bst =>
      match objs.lookup name with
      | none => .error ("KeyError: " ++ name)
      | some aObj =>
        let sup : List (Obj P) := support_base bst.support
        let sup2 := if aObj ∈ sup then sup else sup ++ [aObj]
        .ok (alistSet mp b.name { bst with support := some sup2 })

/-- The `holding` clause: when the entry records `holding = X`, set X's `held`
to `True`. -/
def apply_holding_clause {P : Type} [DecidableEq P]
    (mp : List (String × LState P)) (st : LState P) :
    Except String (List (String × LState P)) :=
  match st.holding with
  | none => .ok mp
  | some x =>
    match mp.lookup x.name with
    | none => .error ("KeyError: " ++ x.name)
    | some xst => .ok (alistSet mp x.name { xst with held := some true })

/-- One iteration of the `for object_name, logical_state in ...items()` loop
(the loop variable's `on`/`holding` fields are never mutated by the loop, so
reading them from the current map is exact). -/
def update_step {P : Type} [DecidableEq P] (objs : List (String × Obj P))
    (mp : List (String × LState P)) (name : String) :
    Except String (List (String × LState P)) :=
  match mp.lookup name with
  | none => .ok mp
  | some st =>
    match apply_on_clause objs mp name st with
    | .error e => .error e
    | .ok m1 => apply_holding_clause m1 st

/-- The whole loop, iterating over the (fixed) key list of the dict. -/
def update_fold {P : Type} [DecidableEq P] (objs : List (String × Obj P)) :
    List String → List (String × LState P) → Except String (List (String × LState P))
  | [], mp => .ok mp
  | k :: ks, mp =>
    match update_step objs mp k with
    | .error e => .error e
    | .ok m2 => update_fold objs ks m2

/-- `SceneManager.update_logical_states`. -/
def update_logical_states {P : Type} [DecidableEq P] (s : SceneMngr P) :
    Except String (SceneMngr P) :=
  match update_fold s.objs (s.logicalStates.map Prod.fst) s.logicalStates with
  | .error e => .error e
  | .ok m2 => .ok { s with logicalStates := m2 }

theorem alistSet_nil {γ : Type} (k : String) (v : γ) : alistSet [] k v = [] := rfl

theorem alistSet_cons {γ : Type} (a : String) (b : γ) (t : List (String × γ))
    (k : String) (v : γ) :
    alistSet ((a, b) :: t) k v = (if a = k then (k, v) else (a, b)) :: alistSet t k v := rfl

theorem lookup_cons {γ : Type} (k a : String) (b : γ) (t : List (String × γ)) :
    List.lookup k ((a, b) :: t) = if k = a then some b else List.lookup k t := by
  by_cases h : k = a
  · have hb : (k == a) = true := by simpa using h
    simp only [List.lookup, hb, if_pos h]
  · have hb : (k == a) = false := by simpa using h
    simp only [List.lookup, hb, if_neg h]

theorem lookup_alistSet_self {γ : Type} (l : List (String × γ)) (k : String) (v : γ)
    (h : (l.lookup k).isSome = true) : (alistSet l k v).lookup k = some v := by
  induction l with
  | nil => simp [List.lookup] at h
  | cons p t ih =>
    rcases p with ⟨a, b⟩
    rw [lookup_cons] at h
    rw [alistSet_cons]
    by_cases hp : a = k
    · rw [if_pos hp, lookup_cons, if_pos rfl]
    · rw [if_neg hp, lookup_cons, if_neg (fun hh => hp hh.symm)]
      rw [if_neg (fun hh => hp hh.symm)] at h
      exact ih h

theorem lookup_alistSet_ne {γ : Type} (l : List (String × γ)) (k k2 : String) (v : γ)
    (h : k2 ≠ k) : (alistSet l k v).lookup k2 = l.lookup k2 := by
  induction l with
  | nil => rw [alistSet_nil]
  | cons p t ih =>
    rcases p with ⟨a, b⟩
    rw [alistSet_cons]
    by_cases hp : a = k
    · rw [if_pos hp, lookup_cons, lookup_cons, if_neg h, if_neg (hp ▸ h)]
      exact ih
    · rw [if_neg hp, lookup_cons, lookup_cons]
      by_cases h2 : k2 = a
      · rw [if_pos h2, if_pos h2]
      · rw [if_neg h2, if_neg h2]
        exact ih

theorem lookup_mem_keys {γ : Type} (l : List (String × γ)) (k : String)
    (h : (l.lookup k).isSome = true) : k ∈ l.map Prod.fst := by
  induction l with
  | nil => simp [List.lookup] at h
  | cons p t ih =>
    rcases p with ⟨a, b⟩
    rw [lookup_cons] at h
    by_cases h2 : k = a
    · simp [h2]
    · rw [if_neg h2] at h
      simp [ih h]

/-- Pointwise effect of an `alistSet` that replaces the state at one key with
a state agreeing on `onObj`/`holding`, not shrinking `support` membership,
and not unsetting `held = true`. -/
theorem alistSet_LState_props {P : Type} [DecidableEq P]
    (mp : List (String × LState P)) (kk : String) (old new : LState P)
    (hk : mp.lookup kk = some old)
    (hon : new.onObj = old.onObj) (hhold : new.holding = old.holding)
    (hsup : ∀ sup aObj, old.support = some sup → aObj ∈ sup →
      ∃ sup2, new.support = some sup2 ∧ aObj ∈ sup2)
    (hheld : old.held = some true → new.held = some true) :
    (∀ a, Option.map LState.onObj ((alistSet mp kk new).lookup a) =
        Option.map LState.onObj (mp.lookup a) ∧
      Option.map LState.holding ((alistSet mp kk new).lookup a) =
        Option.map LState.holding (mp.lookup a) ∧
      ((alistSet mp kk new).lookup a).isSome = (mp.lookup a).isSome) ∧
    (∀ a st sup aObj, mp.lookup a = some st → st.support = some sup → aObj ∈ sup →
      ∃ st2 sup2, (alistSet mp kk new).lookup a = some st2 ∧
        st2.support = some sup2 ∧ aObj ∈ sup2) ∧
    (∀ a st, mp.lookup a = some st → st.held = some true →
      ∃ st2, (alistSet mp kk new).lookup a = some st2 ∧ st2.held = some true) := by
  have hself : (alistSet mp kk new).lookup kk = some new :=
    lookup_alistSet_self mp kk new (by rw [hk]; rfl)
  refine ⟨?_, ?_, ?_⟩
  · intro a
    by_cases ha : a = kk
    · subst ha
      rw [hself, hk]
      exact ⟨by simp [hon], by simp [hhold], rfl⟩
    · rw [lookup_alistSet_ne mp kk a new ha]
      exact ⟨rfl, rfl, rfl⟩
  · intro a st sup aObj hst hsp hmem
    by_cases ha : a = kk
    · subst ha
      rw [hk] at hst
      injection hst with hst
      subst hst
      obtain ⟨sup2, hs2, hm2⟩ := hsup sup aObj hsp hmem
      exact ⟨new, sup2, hself, hs2, hm2⟩
    · rw [lookup_alistSet_ne mp kk a new ha]
      exact ⟨st, sup, hst, hsp, hmem⟩
  · intro a st hst hh
    by_cases ha : a = kk
    · subst ha
      rw [hk] at hst
      injection hst with hst
      subst hst
      exact ⟨new, hself, hheld hh⟩
    · rw [lookup_alistSet_ne mp kk a new ha]
      exact ⟨st, hst, hh⟩

/-- Shape of a successful `on` clause. -/
theorem apply_on_clause_shape {P : Type} [DecidableEq P] (objs : List (String × Obj P))
    (mp : List (String × LState P)) (name : String) (st : LState P)
    (m1 : List (String × LState P))
    (h : apply_on_clause objs mp name st = .ok m1) :
    (st.onObj = none ∧ m1 = mp) ∨
    ∃ b bst aObj sup2, st.onObj = some b ∧ mp.lookup b.name = some bst ∧
      objs.lookup name = some aObj ∧ aObj ∈ sup2 ∧
      (∀ sup, bst.support = some sup → ∀ x, x ∈ sup → x ∈ sup2) ∧
      m1 = alistSet mp b.name { bst with support := some sup2 } := by
  unfold apply_on_clause at h
  cases hon : st.onObj with
  | none =>
    simp only [hon] at h
    injection h with h1
    exact Or.inl ⟨rfl, h1.symm⟩
  | some b =>
    simp only [hon] at h
    cases hb : mp.lookup b.name with
    | none =>
      simp only [hb] at h
      exact Except.noConfusion h
    | some bst =>
      simp only [hb] at h
      cases ha : objs.lookup name with
      | none =>
        simp only [ha] at h
        exact Except.noConfusion h
      | some aObj =>
        simp only [ha] at h
        injection h with h1
        refine Or.inr ⟨b, bst, aObj, _, rfl, hb, rfl, ?_, ?_, h1.symm⟩
        · by_cases hm : aObj ∈ support_base bst.support
          · rw [if_pos hm]
            exact hm
          · rw [if_neg hm]
            exact List.mem_append_right _ (by simp)
        · intro sup hsp x hx
          have hbase : x ∈ support_base bst.support := by
            rw [hsp]
            cases sup with
            | nil => simp at hx
            | cons y ys => exact hx
          by_cases hm : aObj ∈ support_base bst.support
          · rw [if_pos hm]
            exact hbase
          · rw [if_neg hm]
            exact List.mem_append_left _ hbase

/-- Shape of a successful `holding` clause. -/
theorem apply_holding_clause_shape {P : Type} [DecidableEq P]
    (mp : List (String × LState P)) (st : LState P) (m2 : List (String × LState P))
    (h : apply_holding_clause mp st = .ok m2) :
    (st.holding = none ∧ m2 = mp) ∨
    ∃ x xst, st.holding = some x ∧ mp.lookup x.name = some xst ∧
      m2 = alistSet mp x.name { xst with held := some true } := by
  unfold apply_holding_clause at h
  cases hh : st.holding with
  | none =>
    simp only [hh] at h
    injection h with h1
    exact Or.inl ⟨rfl, h1.symm⟩
  | some x =>
    simp only [hh] at h
    cases hx : mp.lookup x.name with
    | none =>
      simp only [hx] at h
      exact Except.noConfusion h
    | some xst =>
      simp only [hx] at h
      injection h with h1
      exact Or.inr ⟨x, xst, rfl, hx, h1.symm⟩

/-- The transition relation between logical-state maps that one loop pass
maintains: `onObj`/`holding`/key presence are preserved pointwise, `support`
membership only grows, `held = True` is never unset. -/
def MapProps {P : Type} [DecidableEq P]
    (mp m2 : List (String × LState P)) : Prop :=
  (∀ a, Option.map LState.onObj (m2.lookup a) = Option.map LState.onObj (mp.lookup a) ∧
    Option.map LState.holding (m2.lookup a) = Option.map LState.holding (mp.lookup a) ∧
    (m2.lookup a).isSome = (mp.lookup a).isSome) ∧
  (∀ a st sup aObj, mp.lookup a = some st → st.support = some sup → aObj ∈ sup →
    ∃ st2 sup2, m2.lookup a = some st2 ∧ st2.support = some sup2 ∧ aObj ∈ sup2) ∧
  (∀ a st, mp.lookup a = some st → st.held = some true →
    ∃ st2, m2.lookup a = some st2 ∧ st2.held = some true)

theorem MapProps_refl {P : Type} [DecidableEq P] (mp : List (String × LState P)) :
    MapProps mp mp :=
  ⟨fun _ => ⟨rfl, rfl, rfl⟩,
    fun _ st sup aObj h1 h2 h3 => ⟨st, sup, h1, h2, h3⟩,
    fun _ st h1 h2 => ⟨st, h1, h2⟩⟩

theorem MapProps_trans {P : Type} [DecidableEq P]
    {m1 m2 m3 : List (String × LState P)}
    (h12 : MapProps m1 m2) (h23 : MapProps m2 m3) : MapProps m1 m3 := by
  refine ⟨fun a => ?_, fun a st sup aObj h1 h2 h3 => ?_, fun a st h1 h2 => ?_⟩
  · obtain ⟨x1, x2, x3⟩ := (h12.1 a)
    obtain ⟨y1, y2, y3⟩ := (h23.1 a)
    exact ⟨y1.trans x1, y2.trans x2, y3.trans x3⟩
  · obtain ⟨st2, sup2, g1, g2, g3⟩ := h12.2.1 a st sup aObj h1 h2 h3
    exact h23.2.1 a st2 sup2 aObj g1 g2 g3
  · obtain ⟨st2, g1, g2⟩ := h12.2.2 a st h1 h2
    exact h23.2.2 a st2 g1 g2

theorem apply_on_clause_MapProps {P : Type} [DecidableEq P]
    (objs : List (String × Obj P)) (mp : List (String × LState P))
    (name : String) (st : LState P) (m1 : List (String × LState P))
    (h : apply_on_clause objs mp name st = .ok m1) : MapProps mp m1 := by
  rcases apply_on_clause_shape objs mp name st m1 h with ⟨_, rfl⟩ |
    ⟨b, bst, aObj, sup2, _, hb, _, _, hsupmono, rfl⟩
  · exact MapProps_refl _
  · exact alistSet_LState_props mp b.name bst { bst with support := some sup2 }
      hb rfl rfl
      (fun sup x hsp hx => ⟨sup2, rfl, hsupmono sup hsp x hx⟩)
      (fun hh => hh)

theorem apply_holding_clause_MapProps {P : Type} [DecidableEq P]
    (mp : List (String × LState P)) (st : LState P) (m2 : List (String × LState P))
    (h : apply_holding_clause mp st = .ok m2) : MapProps mp m2 := by
  rcases apply_holding_clause_shape mp st m2 h with ⟨_, rfl⟩ | ⟨x, xst, _, hx, rfl⟩
  · exact MapProps_refl _
  · exact alistSet_LState_props mp x.name xst { xst with held := some true }
      hx rfl rfl
      (fun sup y hsp hy => ⟨sup, hsp ▸ rfl, hy⟩)
      (fun _ => rfl)

theorem update_step_MapProps {P : Type} [DecidableEq P]
    (objs : List (String × Obj P)) (mp m2 : List (String × LState P)) (k : String)
    (h : update_step objs mp k = .ok m2) : MapProps mp m2 := by
  unfold update_step at h
  cases hk : mp.lookup k with
  | none =>
    simp only [hk] at h
    injection h with h1
    exact h1 ▸ MapProps_refl mp
  | some st =>
    simp only [hk] at h
    cases hoc : apply_on_clause objs mp k st with
    | error e =>
      simp only [hoc] at h
      exact Except.noConfusion h
    | ok m1 =>
      simp only [hoc] at h
      exact MapProps_trans (apply_on_clause_MapProps objs mp k st m1 hoc)
        (apply_holding_clause_MapProps m1 st m2 h)

theorem update_fold_MapProps {P : Type} [DecidableEq P]
    (objs : List (String × Obj P)) :
    ∀ (keys : List String) (mp mEnd : List (String × LState P)),
      update_fold objs keys mp = .ok mEnd → MapProps mp mEnd := by
  intro keys
  induction keys with
  | nil =>
    intro mp mEnd h
    injection h with h1
    exact h1 ▸ MapProps_refl mp
  | cons k ks ih =>
    intro mp mEnd h
    unfold update_fold at h
    cases hstep : update_step objs mp k with
    | error e =>
      simp only [hstep] at h
      exact Except.noConfusion h
    | ok m1 =>
      simp only [hstep] at h
      exact MapProps_trans (update_step_MapProps objs mp m1 k hstep) (ih m1 mEnd h)

theorem lookup_transfer_fwd {P : Type} [DecidableEq P]
    {mp m1 : List (String × LState P)} {a : String} {st : LState P}
    (hA : MapProps mp m1) (hst : mp.lookup a = some st) :
    ∃ st1, m1.lookup a = some st1 ∧ st1.onObj = st.onObj ∧
      st1.holding = st.holding := by
  obtain ⟨h1, h2, h3⟩ := hA.1 a
  rw [hst] at h1 h2 h3
  cases hm : m1.lookup a with
  | none =>
    rw [hm] at h3
    simp at h3
  | some st1 =>
    rw [hm] at h1 h2
    simp only [Option.map_some'] at h1 h2
    exact ⟨st1, rfl, by injection h1, by injection h2⟩

theorem lookup_transfer_rev {P : Type} [DecidableEq P]
    {mp m1 : List (String × LState P)} {a : String} {st1 : LState P}
    (hA : MapProps mp m1) (hst : m1.lookup a = some st1) :
    ∃ st, mp.lookup a = some st ∧ st1.onObj = st.onObj ∧
      st1.holding = st.holding := by
  obtain ⟨h1, h2, h3⟩ := hA.1 a
  rw [hst] at h1 h2 h3
  cases hm : mp.lookup a with
  | none =>
    rw [hm] at h3
    simp at h3
  | some st =>
    rw [hm] at h1 h2
    simp only [Option.map_some'] at h1 h2
    exact ⟨st, rfl, by injection h1, by injection h2⟩

theorem update_step_establishes {P : Type} [DecidableEq P]
    (objs : List (String × Obj P)) (mp m2 : List (String × LState P))
    (k : String) (st : LState P)
    (hk : mp.lookup k = some st) (h : update_step objs mp k = .ok m2) :
    (∀ b, st.onObj = some b →
      ∃ aObj st2 sup, objs.lookup k = some aObj ∧ m2.lookup b.name = some st2 ∧
        st2.support = some sup ∧ aObj ∈ sup) ∧
    (∀ x, st.holding = some x →
      ∃ st2, m2.lookup x.name = some st2 ∧ st2.held = some true) := by
  unfold update_step at h
  rw [hk] at h
  cases hoc : apply_on_clause objs mp k st with
  | error e =>
    simp only [hoc] at h
    exact Except.noConfusion h
  | ok m1 =>
    simp only [hoc] at h
    have hProps1 : MapProps m1 m2 := apply_holding_clause_MapProps m1 st m2 h
    constructor
    · intro b hon
      rcases apply_on_clause_shape objs mp k st m1 hoc with ⟨hnone, _⟩ |
        ⟨b2, bst, aObj, sup2, hon2, hb, ha, hmem, _, rfl⟩
      · rw [hon] at hnone
        exact Option.noConfusion hnone
      · rw [hon] at hon2
        injection hon2 with hbb
        subst hbb
        have hself : (alistSet mp b.name { bst with support := some sup2 }).lookup b.name =
            some { bst with support := some sup2 } :=
          lookup_alistSet_self mp b.name _ (by rw [hb]; rfl)
        obtain ⟨st2, sup3, g1, g2, g3⟩ :=
          hProps1.2.1 b.name { bst with support := some sup2 } sup2 aObj hself rfl hmem
        exact ⟨aObj, st2, sup3, ha, g1, g2, g3⟩
    · intro x hh
      rcases apply_holding_clause_shape m1 st m2 h with ⟨hnone, _⟩ |
        ⟨x2, xst, hh2, hx, rfl⟩
      · rw [hh] at hnone
        exact Option.noConfusion hnone
      · rw [hh] at hh2
        injection hh2 with hxx
        subst hxx
        have hself : (alistSet m1 x.name { xst with held := some true }).lookup x.name =
            some { xst with held := some true } :=
          lookup_alistSet_self m1 x.name _ (by rw [hx]; rfl)
        exact ⟨{ xst with held := some true }, hself, rfl⟩

theorem update_fold_establishes {P : Type} [DecidableEq P]
    (objs : List (String × Obj P)) :
    ∀ (keys : List String) (mp mEnd : List (String × LState P)),
      update_fold objs keys mp = .ok mEnd →
      ∀ a, a ∈ keys → ∀ st, mp.lookup a = some st →
      (∀ b, st.onObj = some b →
        ∃ aObj st2 sup, objs.lookup a = some aObj ∧ mEnd.lookup b.name = some st2 ∧
          st2.support = some sup ∧ aObj ∈ sup) ∧
      (∀ x, st.holding = some x →
        ∃ st2, mEnd.lookup x.name = some st2 ∧ st2.held = some true) := by
  intro keys
  induction keys with
  | nil =>
    intro mp mEnd _ a ha
    simp at ha
  | cons k ks ih =>
    intro mp mEnd h a ha st hst
    unfold update_fold at h
    cases hstep : update_step objs mp k with
    | error e =>
      simp only [hstep] at h
      exact Except.noConfusion h
    | ok m1 =>
      simp only [hstep] at h
      have hRest : MapProps m1 mEnd := update_fold_MapProps objs ks m1 mEnd h
      rcases List.mem_cons.mp ha with rfl | hks
      · have hEst := update_step_establishes objs mp m1 a st hst hstep
        constructor
        · intro b hon
          obtain ⟨aObj, st2, sup, g0, g1, g2, g3⟩ := hEst.1 b hon
          obtain ⟨st3, sup3, f1, f2, f3⟩ := hRest.2.1 b.name st2 sup aObj g1 g2 g3
          exact ⟨aObj, st3, sup3, g0, f1, f2, f3⟩
        · intro x hh
          obtain ⟨st2, g1, g2⟩ := hEst.2 x hh
          obtain ⟨st3, f1, f2⟩ := hRest.2.2 x.name st2 g1 g2
          exact ⟨st3, f1, f2⟩
      · have hStep : MapProps mp m1 := update_step_MapProps objs mp m1 k hstep
        obtain ⟨st1, g1, g2, g3⟩ := lookup_transfer_fwd hStep hst
        have hIH := ih m1 mEnd h a hks st1 g1
        constructor
        · intro b hon
          exact hIH.1 b (g2.trans hon)
        · intro x hh
          exact hIH.2 x (g3.trans hh)

/-- C9: after a successful `update_logical_states`, every entry whose logical
state records `on = B` has `objs[its name]` contained in B's `support` list,
and every entry whose state records `holding = X` has X's state recording
`held = True`. -/
theorem C9_update_logical_states {P : Type} [DecidableEq P] (s s2 : SceneMngr P)
    (h : update_logical_states s = .ok s2) :
    (∀ a st b, s2.logicalStates.lookup a = some st → st.onObj = some b →
      ∃ aObj stB sup, s2.objs.lookup a = some aObj ∧
        s2.logicalStates.lookup b.name = some stB ∧ stB.support = some sup ∧
        aObj ∈ sup) ∧
    (∀ g stG x, s2.logicalStates.lookup g = some stG → stG.holding = some x →
      ∃ stX, s2.logicalStates.lookup x.name = some stX ∧ stX.held = some true) := by
  unfold update_logical_states at h
  cases hf : update_fold s.objs (s.logicalStates.map Prod.fst) s.logicalStates with
  | error e =>
    simp only [hf] at h
    exact Except.noConfusion h
  | ok m2 =>
    simp only [hf] at h
    injection h with h1
    subst h1
    have hAll : MapProps s.logicalStates m2 :=
      update_fold_MapProps s.objs (s.logicalStates.map Prod.fst) s.logicalStates m2 hf
    constructor
    · intro a st b hlook hon
      obtain ⟨st0, g1, g2, _⟩ := lookup_transfer_rev hAll hlook
      have hkeys : a ∈ s.logicalStates.map Prod.fst :=
        lookup_mem_keys s.logicalStates a (by rw [g1]; rfl)
      have hEst := update_fold_establishes s.objs (s.logicalStates.map Prod.fst)
        s.logicalStates m2 hf a hkeys st0 g1
      exact hEst.1 b (g2.symm.trans hon)
    · intro g stG x hlook hh
      obtain ⟨st0, g1, _, g3⟩ := lookup_transfer_rev hAll hlook
      have hkeys : g ∈ s.logicalStates.map Prod.fst :=
        lookup_mem_keys s.logicalStates g (by rw [g1]; rfl)
      have hEst := update_fold_establishes s.objs (s.logicalStates.map Prod.fst)
        s.logicalStates m2 hf g hkeys st0 g1
      exact hEst.2 x (g3.symm.trans hh)

theorem lookup_append_right_isSome {γ : Type} (l : List (String × γ)) (k : String)
    (v : γ) : ((l ++ [(k, v)]).lookup k).isSome = true := by
  induction l with
  | nil => simp [lookup_cons]
  | cons p t ih =>
    rcases p with ⟨a, b⟩
    rw [List.cons_append, lookup_cons]
    by_cases h : k = a
    · rw [if_pos h]
      rfl
    · rw [if_neg h]
      exact ih

theorem lookup_append_right_of_none {γ : Type} (l : List (String × γ)) (k : String)
    (v : γ) (h : l.lookup k = none) : (l ++ [(k, v)]).lookup k = some v := by
  induction l with
  | nil => simp [lookup_cons]
  | cons p t ih =>
    rcases p with ⟨a, b⟩
    rw [lookup_cons] at h
    rw [List.cons_append, lookup_cons]
    by_cases h2 : k = a
    · rw [if_pos h2] at h
      exact Option.noConfusion h
    · rw [if_neg h2] at h
      rw [if_neg h2]
      exact ih h

theorem lookup_alistRemove_self {γ : Type} (l : List (String × γ)) (k : String) :
    (alistRemove l k).lookup k = none := by
  induction l with
  | nil => rfl
  | cons p t ih =>
    rcases p with ⟨a, b⟩
    by_cases h : a = k
    · simpa [alistRemove, List.filter_cons, h] using ih
    · have hne : k ≠ a := fun hh => h hh.symm
      simp only [alistRemove, List.filter_cons] at ih ⊢
      simp [h, lookup_cons, hne, ih]

theorem not_mem_filter_ne (l : List String) (k : String) :
    k ∉ l.filter (fun x => x != k) := by
  intro hm
  have h2 := (List.mem_filter.mp hm).2
  simp at h2

/-- The successful path of `attach_object_on_gripper`, made explicit. -/
theorem attach_ok {P : Type} [DecidableEq P] (relT : P → P → P) (s : SceneMngr P)
    (name : String) (og : Bool) (r : RobotState P) (obj : Obj P)
    (h1 : s.robot = some r) (h2 : r.hasGripper = true)
    (h3 : s.objs.lookup name = some obj) :
    attach_object_on_gripper relT s name og = .ok { s with
      isAttached := true,
      attachedObjName := some obj.name,
      objCollisionMngr := s.objCollisionMngr.filter (fun x => x != name),
      transformBetGripperNObj := some (relT r.gripper.gripperPose obj.hMat),
      robot := some { r with
        gripper := { r.gripper with
          isAttached := true,
          attachedObjName := some obj.name,
          info := r.gripper.info ++
            [(name, ⟨obj.name, obj.gtype, obj.gparam, obj.hMat⟩)] },
        infoCollision := if og then r.infoCollision
          else r.infoCollision ++ [(name, ⟨obj.name, obj.gtype, obj.gparam, obj.hMat⟩)],
        infoVisual := if og then r.infoVisual
          else r.infoVisual ++ [(name, ⟨obj.name, obj.gtype, obj.gparam, obj.hMat⟩)] },
      robotCollisionMngr := if og then s.robotCollisionMngr
        else s.robotCollisionMngr ++ [name],
      gripperCollisionMngr := s.gripperCollisionMngr ++ [name],
      objs := alistRemove s.objs name } := by
  unfold attach_object_on_gripper
  simp only [h1, h3]
  rw [if_neg (by rw [h2]; simp)]

/-- The successful path of `detach_object_from_gripper`, made explicit. -/
theorem detach_ok {P : Type} [DecidableEq P] (t : SceneMngr P) (og : Bool)
    (r2 : RobotState P) (an : String)
    (h1 : t.robot = some r2) (h2 : t.attachedObjName = some an)
    (hgi : (r2.gripper.info.lookup an).isSome = true)
    (hic : og = false → (r2.infoCollision.lookup an).isSome = true) :
    ∃ s2, detach_object_from_gripper t og = .ok s2 ∧
      s2.objs = t.objs ∧
      s2.objCollisionMngr = t.objCollisionMngr ∧
      s2.isAttached = false ∧
      s2.attachedObjName = t.attachedObjName ∧
      s2.gripperCollisionMngr = t.gripperCollisionMngr.filter (fun x => x != an) ∧
      ∃ r3, s2.robot = some r3 ∧ r3.gripper.isAttached = false ∧
        r3.gripper.attachedObjName = none ∧
        r3.gripper.info = alistRemove r2.gripper.info an ∧
        (og = false → r3.infoCollision = alistRemove r2.infoCollision an ∧
          s2.robotCollisionMngr = t.robotCollisionMngr.filter (fun x => x != an)) := by
  obtain ⟨w, hw⟩ := Option.isSome_iff_exists.mp hgi
  cases og with
  | true =>
    unfold detach_object_from_gripper
    simp only [h1, h2, Bool.cond_true, hw]
    exact ⟨_, rfl, rfl, rfl, rfl, h2 ▸ rfl, rfl, _, rfl, rfl, rfl, rfl,
      fun hfalse => Bool.noConfusion hfalse⟩
  | false =>
    obtain ⟨w2, hw2⟩ := Option.isSome_iff_exists.mp (hic rfl)
    unfold detach_object_from_gripper
    simp only [h1, h2, Bool.cond_false, hw2, hw]
    exact ⟨_, rfl, rfl, rfl, rfl, h2 ▸ rfl, rfl, _, rfl, rfl, rfl, rfl,
      fun _ => ⟨rfl, rfl⟩⟩

/-- The `dict.pop` failure path of `detach_object_from_gripper`: when the
attached name is recorded but its info entries are gone (as after a previous
detach), the method raises `KeyError`. -/
theorem detach_keyerror {P : Type} [DecidableEq P] (t : SceneMngr P) (og : Bool)
    (r2 : RobotState P) (an : String)
    (h1 : t.robot = some r2) (h2 : t.attachedObjName = some an)
    (hgi : r2.gripper.info.lookup an = none)
    (hic : og = false → r2.infoCollision.lookup an = none) :
    detach_object_from_gripper t og = .error ("KeyError: " ++ an) := by
  cases og with
  | true =>
    unfold detach_object_from_gripper
    simp only [h1, h2, Bool.cond_true, hgi]
  | false =>
    unfold detach_object_from_gripper
    simp only [h1, h2, Bool.cond_false, hic rfl]

/-- The `[name, gtype, gparam, h_mat]` record attach copies around. -/
def gObjInfo {P : Type} (obj : Obj P) : GeomInfo P :=
  ⟨obj.name, obj.gtype, obj.gparam, obj.hMat⟩

/-- The robot state after a successful attach. -/
def attachRobot {P : Type} (r : RobotState P) (name : String) (og : Bool)
    (obj : Obj P) : RobotState P :=
  { r with
    gripper := { r.gripper with
      isAttached := true,
      attachedObjName := some obj.name,
      info := r.gripper.info ++ [(name, gObjInfo obj)] },
    infoCollision := if og then r.infoCollision
      else r.infoCollision ++ [(name, gObjInfo obj)],
    infoVisual := if og then r.infoVisual
      else r.infoVisual ++ [(name, gObjInfo obj)] }

/-- The scene state after a successful attach. -/
def attachResult {P : Type} (relT : P → P → P) (s : SceneMngr P) (name : String)
    (og : Bool) (r : RobotState P) (obj : Obj P) : SceneMngr P :=
  { s with
    isAttached := true,
    attachedObjName := some obj.name,
    objCollisionMngr := s.objCollisionMngr.filter (fun x => x != name),
    transformBetGripperNObj := some (relT r.gripper.gripperPose obj.hMat),
    robot := some (attachRobot r name og obj),
    robotCollisionMngr := if og then s.robotCollisionMngr
      else s.robotCollisionMngr ++ [name],
    gripperCollisionMngr := s.gripperCollisionMngr ++ [name],
    objs := alistRemove s.objs name }

theorem attach_ok2 {P : Type} [DecidableEq P] (relT : P → P → P) (s : SceneMngr P)
    (name : String) (og : Bool) (r : RobotState P) (obj : Obj P)
    (h1 : s.robot = some r) (h2 : r.hasGripper = true)
    (h3 : s.objs.lookup name = some obj) :
    attach_object_on_gripper relT s name og =
      .ok (attachResult relT s name og r obj) := by
  rw [attach_ok relT s name og r obj h1 h2 h3]
  rfl

/-- C5 (amended): with a robot, gripper and registered object present,
`detach_object_from_gripper` after `attach_object_on_gripper` removes the
object's geometry from the gripper (and, unless `only_gripper`, robot)
managers and info dicts and clears the attach flags — but it does NOT restore
the object to the scene's object registry or object collision manager (the
object stays gone until `add_object` is called again, which is what
`PickAction.get_possible_joint_path_level_3` does); and when nothing is
attached the call fails with an error (an `AttributeError` when no attach
ever happened, a `KeyError` when called a second time). -/
theorem C5_detach_behavior {P : Type} [DecidableEq P] (relT : P → P → P)
    (s : SceneMngr P) (name : String) (og : Bool) (r : RobotState P) (obj : Obj P)
    (h1 : s.robot = some r) (h2 : r.hasGripper = true)
    (h3 : s.objs.lookup name = some obj) (h4 : obj.name = name) :
    (s.attachedObjName = none →
      detach_object_from_gripper s og = .error "AttributeError: attached_obj_name") ∧
    ∃ s2, (attach_object_on_gripper relT s name og).bind
        (fun s1 => detach_object_from_gripper s1 og) = .ok s2 ∧
      s2.isAttached = false ∧
      s2.robot.map (fun r2 => r2.gripper.isAttached) = some false ∧
      s2.robot.map (fun r2 => r2.gripper.attachedObjName) = some none ∧
      s2.robot.map (fun r2 => r2.gripper.info.lookup name) = some none ∧
      name ∉ s2.gripperCollisionMngr ∧
      (og = false →
        s2.robot.map (fun r2 => r2.infoCollision.lookup name) = some none ∧
        name ∉ s2.robotCollisionMngr) ∧
      s2.objs.lookup name = none ∧
      name ∉ s2.objCollisionMngr ∧
      detach_object_from_gripper s2 og = .error ("KeyError: " ++ name) := by
  subst h4
  constructor
  · intro hnone
    unfold detach_object_from_gripper
    simp only [h1, hnone]
  · have hatt := attach_ok2 relT s obj.name og r obj h1 h2 h3
    have hgi : (((attachRobot r obj.name og obj).gripper.info).lookup obj.name).isSome
        = true :=
      lookup_append_right_isSome r.gripper.info obj.name (gObjInfo obj)
    have hic : og = false →
        (((attachRobot r obj.name og obj).infoCollision).lookup obj.name).isSome
          = true := by
      intro hf
      subst hf
      exact lookup_append_right_isSome r.infoCollision obj.name (gObjInfo obj)
    obtain ⟨s2, hdet, hobjs, hocm, hisatt, hattname, hgcm, r3, hrob, hgatt, hgan,
      hginfo, hcond⟩ :=
      detach_ok (attachResult relT s obj.name og r obj) og
        (attachRobot r obj.name og obj) obj.name rfl rfl hgi hic
    refine ⟨s2, ?_, hisatt, ?_, ?_, ?_, ?_, ?_, ?_, ?_, ?_⟩
    · rw [hatt]
      exact hdet
    · rw [hrob]
      exact congrArg some hgatt
    · rw [hrob]
      exact congrArg some hgan
    · rw [hrob]
      refine congrArg some ?_
      show List.lookup obj.name r3.gripper.info = none
      rw [hginfo]
      exact lookup_alistRemove_self _ _
    · rw [hgcm]
      exact not_mem_filter_ne _ _
    · intro hf
      obtain ⟨hi, hr⟩ := hcond hf
      constructor
      · rw [hrob]
        refine congrArg some ?_
        show List.lookup obj.name r3.infoCollision = none
        rw [hi]
        exact lookup_alistRemove_self _ _
      · rw [hr]
        exact not_mem_filter_ne _ _
    · rw [hobjs]
      exact lookup_alistRemove_self _ _
    · rw [hocm]
      exact not_mem_filter_ne _ _
    · refine detach_keyerror s2 og r3 obj.name hrob (hattname.trans rfl) ?_ ?_
      · rw [hginfo]
        exact lookup_alistRemove_self _ _
      · intro hf
        rw [(hcond hf).1]
        exact lookup_alistRemove_self _ _

/-- C10: after a successful attach, the object is gone from the scene's
object registry and object-object collision manager, so `get_object_pose`,
`set_object_pose` and `remove_object` all fail with the missing-object error,
until an object of that name is added again (after which `get_object_pose`
succeeds). -/
theorem C10_attach_removes_object {P : Type} [DecidableEq P] (relT : P → P → P)
    (s : SceneMngr P) (name : String) (og : Bool) (r : RobotState P) (obj : Obj P)
    (h1 : s.robot = some r) (h2 : r.hasGripper = true)
    (h3 : s.objs.lookup name = some obj) :
    ∃ s1, attach_object_on_gripper relT s name og = .ok s1 ∧
      s1.objs.lookup name = none ∧
      name ∉ s1.objCollisionMngr ∧
      get_object_pose s1 name =
        .error ("object " ++ name ++ " needs to be added first") ∧
      (∀ pose, set_object_pose s1 name pose =
        .error ("object " ++ name ++ " needs to be added first")) ∧
      remove_object s1 name =
        .error ("object " ++ name ++ " needs to be added first") ∧
      ∀ gt gp hm c, ∃ s3, add_object s1 name gt gp hm c = .ok s3 ∧
        get_object_pose s3 name = .ok hm := by
  have hnone : (attachResult relT s name og r obj).objs.lookup name = none :=
    lookup_alistRemove_self s.objs name
  refine ⟨attachResult relT s name og r obj,
    attach_ok2 relT s name og r obj h1 h2 h3, hnone, ?_, ?_, ?_, ?_, ?_⟩
  · exact not_mem_filter_ne s.objCollisionMngr name
  · unfold get_object_pose
    rw [hnone]
  · intro pose
    unfold set_object_pose
    rw [hnone]
  · unfold remove_object
    rw [hnone]
    rfl
  · intro gt gp hm c
    unfold add_object
    rw [hnone]
    refine ⟨_, rfl, ?_⟩
    unfold get_object_pose
    rw [lookup_append_right_of_none _ name _ hnone]

/-- A gripper with nothing attached. -/
def grip0 : Gripper Unit := ⟨(), false, none, []⟩

/-- A robot with a gripper and empty info dicts. -/
def robot0 : RobotState Unit := ⟨true, grip0, [], []⟩

/-- A box object. -/
def objBox : Obj Unit := ⟨"box", "box", "p", (), "g"⟩

/-- A scene holding `robot0` and the box. -/
def scene5 : SceneMngr Unit :=
  ⟨[("box", objBox)], some robot0, ["box"], [], [], false, none, none, []⟩

/-- The state `scene5` reaches after attach-then-detach of the box. -/
def scene5post : SceneMngr Unit :=
  ⟨[], some ⟨true, ⟨(), false, none, []⟩, [], []⟩, [], [], [], false, some "box",
    some (), []⟩

/-- Counterexample for C5: the claim says detach "reverses the effect of
attach", restoring the object's collision geometry to the scene's object
side.  On `scene5`, attach followed by detach succeeds, yet the box is in
neither the object registry nor the object collision manager of the resulting
scene — detach never re-adds what attach popped. -/
theorem C5_counterexample :
    (attach_object_on_gripper (fun _ _ => ()) scene5 "box" false).bind
      (fun s1 => detach_object_from_gripper s1 false) = .ok scene5post ∧
    scene5post.objs.lookup "box" = none ∧
    "box" ∉ scene5post.objCollisionMngr ∧
    scene5post.isAttached = false := by
  refine ⟨rfl, rfl, ?_, rfl⟩
  simp [scene5post]

/-- Witness for C5 (amended) on the concrete `scene5`. -/
theorem C5_detach_behavior_witness :
    (scene5.attachedObjName = none →
      detach_object_from_gripper scene5 false =
        .error "AttributeError: attached_obj_name") ∧
    ∃ s2, (attach_object_on_gripper (fun _ _ => ()) scene5 "box" false).bind
        (fun s1 => detach_object_from_gripper s1 false) = .ok s2 ∧
      s2.isAttached = false ∧
      s2.robot.map (fun r2 => r2.gripper.isAttached) = some false ∧
      s2.robot.map (fun r2 => r2.gripper.attachedObjName) = some none ∧
      s2.robot.map (fun r2 => r2.gripper.info.lookup "box") = some none ∧
      "box" ∉ s2.gripperCollisionMngr ∧
      (false = false →
        s2.robot.map (fun r2 => r2.infoCollision.lookup "box") = some none ∧
        "box" ∉ s2.robotCollisionMngr) ∧
      s2.objs.lookup "box" = none ∧
      "box" ∉ s2.objCollisionMngr ∧
      detach_object_from_gripper s2 false = .error ("KeyError: " ++ "box") :=
  C5_detach_behavior (fun _ _ => ()) scene5 "box" false robot0 objBox rfl rfl rfl rfl

/-- Witness for C10 on the concrete `scene5`. -/
theorem C10_attach_removes_object_witness :
    ∃ s1, attach_object_on_gripper (fun _ _ => ()) scene5 "box" false = .ok s1 ∧
      s1.objs.lookup "box" = none ∧
      "box" ∉ s1.objCollisionMngr ∧
      get_object_pose s1 "box" =
        .error ("object " ++ "box" ++ " needs to be added first") ∧
      (∀ pose, set_object_pose s1 "box" pose =
        .error ("object " ++ "box" ++ " needs to be added first")) ∧
      remove_object s1 "box" =
        .error ("object " ++ "box" ++ " needs to be added first") ∧
      ∀ gt gp hm c, ∃ s3, add_object s1 "box" gt gp hm c = .ok s3 ∧
        get_object_pose s3 "box" = .ok hm :=
  C10_attach_removes_object (fun _ _ => ()) scene5 "box" false robot0 objBox
    rfl rfl rfl

/-- Objects for the logical-state witness scene. -/
def objA : Obj Unit := ⟨"A", "box", "p", (), "k"⟩

def objB : Obj Unit := ⟨"B", "box", "p", (), "k"⟩

/-- A scene where A is `on` B and the gripper is `holding` A. -/
def scene9 : SceneMngr Unit :=
  ⟨[("A", objA), ("B", objB)], none, ["A", "B"], [], [], false, none, none,
    [("A", { onObj := some objB }), ("B", ({} : LState Unit)),
      ("gripper", { holding := some objA })]⟩

/-- `scene9` after `update_logical_states`. -/
def scene9post : SceneMngr Unit :=
  { scene9 with logicalStates :=
    [("A", { onObj := some objB, held := some true }),
      ("B", { support := some [objA] }),
      ("gripper", { holding := some objA })] }

/-- Witness for C9: on `scene9` the update succeeds, B's support list
contains A, and A is recorded as held. -/
theorem C9_update_logical_states_witness :
    update_logical_states scene9 = .ok scene9post ∧
    (∃ aObj stB sup, scene9post.objs.lookup "A" = some aObj ∧
      scene9post.logicalStates.lookup "B" = some stB ∧ stB.support = some sup ∧
      aObj ∈ sup) ∧
    (∃ stX, scene9post.logicalStates.lookup "A" = some stX ∧
      stX.held = some true) := by
  have h9 : update_logical_states scene9 = .ok scene9post := by rfl
  have hmain := C9_update_logical_states scene9 scene9post h9
  refine ⟨h9, ?_, ?_⟩
  · exact hmain.1 "A" ({ onObj := some objB, held := some true } : LState Unit)
      objB rfl rfl
  · exact hmain.2 "gripper" ({ holding := some objA } : LState Unit) objA rfl rfl

/-!
## Pick-action transitions (`pykin/action/pick.py`)
-/

/-- The Python exception kinds relevant to `get_possible_transitions`. -/
inductive PyErr where
  | valueError (msg : String)
  | keyError (key : String)
deriving DecidableEq

/-- The action dict built by `PickAction.get_action`; an empty dict has all
three keys absent. -/
structure PickActionDict (G : Type) where
  typeField : Option String := none
  pickObjName : Option String := none
  graspPoses : Option (List G) := none

/-- Python truthiness of the action dict: `not action` is true exactly when
the dict has no keys. -/
def action_is_empty {G : Type} (a : PickActionDict G) : Bool :=
  a.typeField.isNone && a.pickObjName.isNone && a.graspPoses.isNone

/-- The entry of `PickAction.get_possible_transitions` up to the first use of
the action's contents (the per-grasp-pose successor-scene construction, which
an empty action never reaches, is abstracted as `rest`).  The line
`if not action: ValueError("Not found any action!!")` CONSTRUCTS the exception
object and immediately discards it — there is no `raise` — so the guard has
no effect; with an empty action the body then fails with a `KeyError` at
`action[self.action_info.PICK_OBJ_NAME]` (and, the function being a
generator, only once it is first iterated). -/
def get_possible_transitions_entry {G S : Type} (rest : String → List G → S)
    (action : PickActionDict G) : Except PyErr S :=
  let _unraised := if action_is_empty action then
    some (PyErr.valueError "Not found any action!!") else none
  match action.pickObjName with
  | none => .error (PyErr.keyError "pick_obj_name")
  | some pick_obj =>
    match action.graspPoses with
    | none => .error (PyErr.keyError "grasp_poses")
    | some grasp_poses => .ok (rest pick_obj grasp_poses)

/-- C6 (code bug): calling `get_possible_transitions` with an empty action
does NOT raise the intended "empty action" `ValueError` — the exception is
constructed but never raised — and the run instead dies with a `KeyError`
when the generator is consumed. -/
theorem C6_empty_action_error_not_raised :
    (get_possible_transitions_entry (fun _ _ => ())
        ({} : PickActionDict Unit) : Except PyErr Unit) =
      .error (PyErr.keyError "pick_obj_name") ∧
    (get_possible_transitions_entry (fun _ _ => ())
        ({} : PickActionDict Unit) : Except PyErr Unit) ≠
      .error (PyErr.valueError "Not found any action!!") := by
  refine ⟨rfl, ?_⟩
  intro h
  have h0 : (Except.error (PyErr.keyError "pick_obj_name") : Except PyErr Unit) =
      Except.error (PyErr.valueError "Not found any action!!") := h
  injection h0 with h1
  exact PyErr.noConfusion h1
